import Mathlib

set_option maxRecDepth 100000

/-!
Shallow embedding of the Contract Runtime Core of the `blockchain` repository
(src/blockchain/src/contract/{mod,access,registry,state}.rs), together with
proofs about the embedded operations.

Modelling conventions:
  * `[u8; 32]` and `Vec<u8>` are `List Nat` of byte values.
  * `HashMap` is an association list with at-most-one entry per key
    (maintained by construction); lookup/insert/remove mirror the map
    semantics, which is all the source observes (iteration either feeds a
    commutative fold or is explicitly sorted first).
  * `Instant` is a `Nat` in nanoseconds, `SystemTime::now().as_secs()` a
    `Nat` in seconds; each function that calls a clock takes the instant of
    the call as an explicit parameter.
  * The ambient caller identity `msg::sender()` is an explicit `sender`
    parameter.
  * `u64` arithmetic that can overflow is taken modulo `2 ^ 64`.
-/

namespace Blockchain

/-- Byte strings (`Vec<u8>`); each element is a byte value. -/
abbrev Bytes := List Nat

/-- 32-byte identifiers (`[u8; 32]`): addresses, roles, hashes. -/
abbrev Bytes32 := List Nat

/-- Lookup in an association-list map (`HashMap::get`). -/
def mapLookup {κ α : Type} [DecidableEq κ] : List (κ × α) → κ → Option α
  | [], _ => none
  | (k, v) :: rest, key => if k = key then some v else mapLookup rest key

/-- Insert/replace in an association-list map (`HashMap::insert`). -/
def mapInsert {κ α : Type} [DecidableEq κ] : List (κ × α) → κ → α → List (κ × α)
  | [], key, val => [(key, val)]
  | (k, v) :: rest, key, val =>
    if k = key then (key, val) :: rest else (k, v) :: mapInsert rest key val

/-- Remove a key from an association-list map (`HashMap::remove`). -/
def mapRemove {κ α : Type} [DecidableEq κ] : List (κ × α) → κ → List (κ × α)
  | [], _ => []
  | (k, v) :: rest, key => if k = key then rest else (k, v) :: mapRemove rest key

/-- Key-presence test (`HashMap::contains_key`). -/
def mapContains {κ α : Type} [DecidableEq κ] (m : List (κ × α)) (key : κ) : Bool :=
  (mapLookup m key).isSome

instance {ε α : Type} [DecidableEq ε] [DecidableEq α] : DecidableEq (Except ε α) := fun x y =>
  match x, y with
  | Except.ok a, Except.ok b =>
    if h : a = b then isTrue (congrArg Except.ok h)
    else isFalse (fun hc => h (by injection hc))
  | Except.error a, Except.error b =>
    if h : a = b then isTrue (congrArg Except.error h)
    else isFalse (fun hc => h (by injection hc))
  | Except.ok _, Except.error _ => isFalse (fun hc => Except.noConfusion hc)
  | Except.error _, Except.ok _ => isFalse (fun hc => Except.noConfusion hc)

/-- Lexicographic strict order on byte strings (the `Ord` of `Vec<u8>`). -/
def bytesLt : Bytes → Bytes → Bool
  | [], [] => false
  | [], _ :: _ => true
  | _ :: _, [] => false
  | a :: as, b :: bs => if a < b then true else if b < a then false else bytesLt as bs

/-- Lexicographic order, non-strict. -/
def bytesLe (a b : Bytes) : Bool := !(bytesLt b a)

/-- Insert a byte string into a lexicographically sorted list. -/
def insertSortedBytes (x : Bytes) : List Bytes → List Bytes
  | [] => [x]
  | y :: ys => if bytesLe x y then x :: y :: ys else y :: insertSortedBytes x ys

/-- Sort byte strings ascending in byte order (`keys.sort()`). -/
def sortBytes (l : List Bytes) : List Bytes := l.foldr insertSortedBytes []

/-! SHA-256 over byte lists, used by `StateManager::compute_state_hash`
(the `sha2` crate), 32-bit words as `Nat` mod `2 ^ 32`. -/

/-- Mask for 32-bit words. -/
def u32mask : Nat := 4294967295

/-- Truncate to a 32-bit word. -/
def w32 (n : Nat) : Nat := n % 4294967296

/-- Right rotation of a 32-bit word. -/
def rotr (n x : Nat) : Nat := ((x >>> n) ||| (x <<< (32 - n))) &&& u32mask

/-- SHA-256 big sigma 0. -/
def bsig0 (x : Nat) : Nat := (rotr 2 x) ^^^ (rotr 13 x) ^^^ (rotr 22 x)

/-- SHA-256 big sigma 1. -/
def bsig1 (x : Nat) : Nat := (rotr 6 x) ^^^ (rotr 11 x) ^^^ (rotr 25 x)

/-- SHA-256 small sigma 0. -/
def ssig0 (x : Nat) : Nat := (rotr 7 x) ^^^ (rotr 18 x) ^^^ (x >>> 3)

/-- SHA-256 small sigma 1. -/
def ssig1 (x : Nat) : Nat := (rotr 17 x) ^^^ (rotr 19 x) ^^^ (x >>> 10)

/-- SHA-256 choice function. -/
def chF (x y z : Nat) : Nat := (x &&& y) ^^^ ((x ^^^ u32mask) &&& z)

/-- SHA-256 majority function. -/
def majF (x y z : Nat) : Nat := (x &&& y) ^^^ (x &&& z) ^^^ (y &&& z)

/-- SHA-256 round constants (FIPS 180-4, written in decimal). -/
def sha256k : List Nat :=
  [1116352408, 1899447441, 3049323471, 3921009573, 961987163, 1508970993, 2453635748,
   2870763221, 3624381080, 310598401, 607225278, 1426881987, 1925078388, 2162078206,
   2614888103, 3248222580, 3835390401, 4022224774, 264347078, 604807628, 770255983,
   1249150122, 1555081692, 1996064986, 2554220882, 2821834349, 2952996808, 3210313671,
   3336571891, 3584528711, 113926993, 338241895, 666307205, 773529912, 1294757372,
   1396182291, 1695183700, 1986661051, 2177026350, 2456956037, 2730485921, 2820302411,
   3259730800, 3345764771, 3516065817, 3600352804, 4094571909, 275423344, 430227734,
   506948616, 659060556, 883997877, 958139571, 1322822218, 1537002063, 1747873779,
   1955562222, 2024104815, 2227730452, 2361852424, 2428436474, 2756734187, 3204031479,
   3329325298]

/-- SHA-256 initial hash state (FIPS 180-4, written in decimal). -/
def sha256h0 : List Nat :=
  [1779033703, 3144134277, 1013904242, 2773480762, 1359893119, 2600822924, 528734635,
   1541459225]

/-- Big-endian 8-byte encoding of a length in bits. -/
def be64 (n : Nat) : List Nat :=
  [(n >>> 56) &&& 255, (n >>> 48) &&& 255, (n >>> 40) &&& 255, (n >>> 32) &&& 255,
   (n >>> 24) &&& 255, (n >>> 16) &&& 255, (n >>> 8) &&& 255, n &&& 255]

/-- Big-endian 4-byte encoding of a 32-bit word. -/
def be32 (n : Nat) : List Nat :=
  [(n >>> 24) &&& 255, (n >>> 16) &&& 255, (n >>> 8) &&& 255, n &&& 255]

/-- SHA-256 message padding. -/
def sha256pad (msg : List Nat) : List Nat :=
  msg ++ [128] ++ List.replicate ((64 - ((msg.length + 9) % 64)) % 64) 0 ++ be64 (msg.length * 8)

/-- Pack bytes into big-endian 32-bit words. -/
def toWords : List Nat → List Nat
  | b0 :: b1 :: b2 :: b3 :: rest =>
    ((b0 <<< 24) ||| (b1 <<< 16) ||| (b2 <<< 8) ||| b3) :: toWords rest
  | _ => []

/-- Append the next word of the SHA-256 message schedule. -/
def extendStep (w : List Nat) : List Nat :=
  let t := w.length
  w ++ [w32 (ssig1 (w.getD (t - 2) 0) + w.getD (t - 7) 0 +
             ssig0 (w.getD (t - 15) 0) + w.getD (t - 16) 0)]

/-- Extend 16 schedule words to 64. -/
def schedule (w : List Nat) : List Nat :=
  (List.range 48).foldl (fun acc _ => extendStep acc) w

/-- One SHA-256 compression round. -/
def compressStep (wrds : List Nat) (st : List Nat) (t : Nat) : List Nat :=
  match st with
  | [a, b, c, d, e, f, g, h] =>
    let t1 := w32 (h + bsig1 e + chF e f g + sha256k.getD t 0 + wrds.getD t 0)
    let t2 := w32 (bsig0 a + majF a b c)
    [w32 (t1 + t2), a, b, c, w32 (d + t1), e, f, g]
  | other => other

/-- Compress a 64-byte block into the hash state. -/
def compressBlock (h : List Nat) (block : List Nat) : List Nat :=
  let wrds := schedule (toWords block)
  let st := (List.range 64).foldl (compressStep wrds) h
  List.zipWith (fun x y => w32 (x + y)) h st

/-- Split into 64-byte chunks, with structural fuel (each step consumes at
least one byte, so `l.length` steps always suffice). -/
def chunk64F : Nat → List Nat → List (List Nat)
  | 0, _ => []
  | _, [] => []
  | fuel + 1, b :: rest => ((b :: rest).take 64) :: chunk64F fuel ((b :: rest).drop 64)

/-- Split into 64-byte chunks. -/
def chunk64 (l : List Nat) : List (List Nat) := chunk64F l.length l

/-- SHA-256 of a byte list, as 32 bytes. -/
def sha256 (msg : List Nat) : List Nat :=
  (((chunk64 (sha256pad msg)).foldl compressBlock sha256h0).map be32).flatten

/-- The error enum `ContractError` from contract/standards.rs. -/
inductive ContractError
  | accessDenied (detail : String)
  | notFound (detail : String)
  | invalidArguments (detail : String)
  | compilationError (detail : String)
  | executionError (detail : String)
  | lockError (detail : String)
  | reentrancyError (detail : String)
  | invalidOperation (detail : String)
  | notImplemented (detail : String)
  | versionConflict (detail : String)
  | versionNotFound (detail : String)
  | versionIncompatible (detail : String)
  | versionUpgradeFailed (detail : String)
  | stateError (detail : String)
  | stateValidationError (detail : String)
  | stateCorrupted (detail : String)
  | stateRollbackFailed (detail : String)
  | upgradeAuthorizationError (detail : String)
  | upgradeValidationError (detail : String)
  | upgradeRollbackError (detail : String)
  | upgradeLimitExceeded (detail : String)
  | bytecodeVerificationError (detail : String)
  | bytecodeIntegrityError (detail : String)
  | concurrencyLimitExceeded (detail : String)
  | operationTimeout (detail : String)
  | operationConflict (detail : String)
  deriving DecidableEq, Repr

/-- The `Display` of `ContractError` as generated by its `#[error(...)]` attributes. -/
def ContractError.display : ContractError → String
  | accessDenied d => "Access denied: " ++ d
  | notFound d => "Contract not found: " ++ d
  | invalidArguments d => "Invalid arguments: " ++ d
  | compilationError d => "Compilation error: " ++ d
  | executionError d => "Execution error: " ++ d
  | lockError d => "Lock error: " ++ d
  | reentrancyError d => "Reentrancy error: " ++ d
  | invalidOperation d => "Invalid operation: " ++ d
  | notImplemented d => "Not implemented: " ++ d
  | versionConflict d => "Version conflict: " ++ d
  | versionNotFound d => "Version not found: " ++ d
  | versionIncompatible d => "Version incompatible: " ++ d
  | versionUpgradeFailed d => "Version upgrade failed: " ++ d
  | stateError d => "State error: " ++ d
  | stateValidationError d => "State validation error: " ++ d
  | stateCorrupted d => "State corrupted: " ++ d
  | stateRollbackFailed d => "State rollback failed: " ++ d
  | upgradeAuthorizationError d => "Upgrade authorization error: " ++ d
  | upgradeValidationError d => "Upgrade validation error: " ++ d
  | upgradeRollbackError d => "Upgrade rollback error: " ++ d
  | upgradeLimitExceeded d => "Upgrade limit exceeded: " ++ d
  | bytecodeVerificationError d => "Bytecode verification error: " ++ d
  | bytecodeIntegrityError d => "Bytecode integrity error: " ++ d
  | concurrencyLimitExceeded d => "Concurrency limit exceeded: " ++ d
  | operationTimeout d => "Operation timeout: " ++ d
  | operationConflict d => "Operation conflict: " ++ d

/-- Rust `{:?}` debug rendering of a byte array, as in the source's error messages. -/
def debugBytes (b : List Nat) : String :=
  "[" ++ String.intercalate ", " (b.map toString) ++ "]"

/-! Operation tracker (contract/mod.rs, `OperationTracker`). -/

/-- The `OperationType` enum from contract/mod.rs. -/
inductive OperationType
  | deploy
  | upgrade
  | execute
  | stateUpdate
  | rollback
  deriving DecidableEq, Repr

/-- Concurrency constants from contract/mod.rs. -/
def MAX_CONCURRENT_OPERATIONS : Nat := 100

/-- Per-second admission cap from contract/mod.rs. -/
def MAX_OPERATIONS_PER_SECOND : Nat := 1000

/-- One second in nanoseconds (`Duration::from_secs(1)`). -/
def oneSecondNs : Nat := 1000000000

/-- The 30 s active-operation timeout, in nanoseconds. -/
def OPERATION_TIMEOUT : Nat := 30 * oneSecondNs

/-- The 60 s history window, in nanoseconds. -/
def OPERATION_HISTORY_WINDOW : Nat := 60 * oneSecondNs

/-- The `OperationMetrics` struct from contract/mod.rs. -/
structure OperationMetrics where
  operation_type : OperationType
  start_time : Nat
  contract_addr : Bytes32
  deriving DecidableEq, Repr

/-- The `OperationTracker` struct: active per-address metrics and the history deque. -/
structure OperationTracker where
  active_operations : List (Bytes32 × List OperationMetrics)
  operation_history : List (Nat × OperationType)
  deriving DecidableEq, Repr

/-- The `OperationTracker::new` constructor. -/
def OperationTracker.new : OperationTracker := ⟨[], []⟩

/-- Total number of active metrics entries (the sum the source computes). -/
def OperationTracker.total_operations (s : OperationTracker) : Nat :=
  (s.active_operations.map (fun e => e.2.length)).sum

/-- Number of history entries within the last second of `now`. -/
def recentOps (history : List (Nat × OperationType)) (now : Nat) : Nat :=
  (history.filter (fun e => now - e.1 < oneSecondNs)).length

/-- The `cleanup_expired_operations` method: drop active entries older than 30 s and
empty address lists, and pop history entries older than 60 s from the front. -/
def OperationTracker.cleanup_expired_operations (s : OperationTracker) (now : Nat) :
    OperationTracker where
  active_operations :=
    (s.active_operations.map
        (fun e => (e.1, e.2.filter (fun op => now - op.start_time < OPERATION_TIMEOUT)))).filter
      (fun e => !e.2.isEmpty)
  operation_history :=
    s.operation_history.dropWhile (fun e => decide (now - e.1 > OPERATION_HISTORY_WINDOW))

/-- The `entry(addr).or_insert_with(Vec::new)` step on the active map. -/
def entryOrInsert (m : List (Bytes32 × List OperationMetrics)) (addr : Bytes32) :
    List (Bytes32 × List OperationMetrics) :=
  if mapContains m addr then m else m ++ [(addr, [])]

/-- The `check_operation_limits` method; returns the result together with the
tracker as mutated by the call (cleanup, plus the `entry` insertion). -/
def OperationTracker.check_operation_limits (s : OperationTracker) (now : Nat)
    (contract_addr : Bytes32) (op_type : OperationType) :
    Except ContractError Unit × OperationTracker :=
  let s1 := s.cleanup_expired_operations now
  if s1.total_operations ≥ MAX_CONCURRENT_OPERATIONS then
    (Except.error (ContractError.concurrencyLimitExceeded
        "Maximum concurrent operations (100) exceeded"), s1)
  else if recentOps s1.operation_history now ≥ MAX_OPERATIONS_PER_SECOND then
    (Except.error (ContractError.concurrencyLimitExceeded
        "Maximum operations per second (1000) exceeded"), s1)
  else
    let s2 : OperationTracker :=
      { s1 with active_operations := entryOrInsert s1.active_operations contract_addr }
    if ((mapLookup s2.active_operations contract_addr).getD []).length ≥ 10 then
      (Except.error (ContractError.concurrencyLimitExceeded
          "Maximum concurrent operations per contract exceeded"), s2)
    else (Except.ok (), s2)

/-- Push a metrics entry onto `active[addr]` (`entry(..).or_insert_with(Vec::new).push`). -/
def pushMetric (m : List (Bytes32 × List OperationMetrics)) (addr : Bytes32)
    (metric : OperationMetrics) : List (Bytes32 × List OperationMetrics) :=
  if mapContains m addr then
    m.map (fun e => if e.1 = addr then (e.1, e.2 ++ [metric]) else e)
  else m ++ [(addr, [metric])]

/-- The `start_operation` method: run the admission checks, then record the
operation in `active[addr]` and in the history. -/
def OperationTracker.start_operation (s : OperationTracker) (now : Nat)
    (contract_addr : Bytes32) (op_type : OperationType) :
    Except ContractError Unit × OperationTracker :=
  match s.check_operation_limits now contract_addr op_type with
  | (Except.error e, s') => (Except.error e, s')
  | (Except.ok _, s') =>
    (Except.ok (),
     { active_operations := pushMetric s'.active_operations contract_addr
         ⟨op_type, now, contract_addr⟩,
       operation_history := s'.operation_history ++ [(now, op_type)] })

/-- The `end_operation` method: `retain` every entry whose `operation_type`
differs from `op_type`; drop the key when the list becomes empty. -/
def OperationTracker.end_operation (s : OperationTracker) (contract_addr : Bytes32)
    (op_type : OperationType) : OperationTracker :=
  match mapLookup s.active_operations contract_addr with
  | none => s
  | some ops =>
    let ops' := ops.filter (fun op => decide (op.operation_type ≠ op_type))
    if ops'.isEmpty then
      { s with active_operations := mapRemove s.active_operations contract_addr }
    else
      { s with active_operations := mapInsert s.active_operations contract_addr ops' }

/-! Access control (contract/access.rs). -/

/-- The zero-byte `DEFAULT_ADMIN_ROLE` constant. -/
def DEFAULT_ADMIN_ROLE : Bytes32 := List.replicate 32 0

/-- The `DEPLOYER_ROLE` constant (`[1u8; 32]`). -/
def DEPLOYER_ROLE : Bytes32 := List.replicate 32 1

/-- The `EXECUTOR_ROLE` constant (`[2u8; 32]`). -/
def EXECUTOR_ROLE : Bytes32 := List.replicate 32 2

/-- The `UPGRADER_ROLE` constant (`[3u8; 32]`). -/
def UPGRADER_ROLE : Bytes32 := List.replicate 32 3

/-- The `AccessControl` struct: role membership maps and role-admin map. -/
structure AccessControl where
  roles : List (Bytes32 × List (Bytes32 × Bool))
  role_admins : List (Bytes32 × Bytes32)
  deriving DecidableEq, Repr

/-- The `AccessControl::new` constructor: the admin of `DEFAULT_ADMIN_ROLE` is itself. -/
def AccessControl.new : AccessControl :=
  ⟨[], [(DEFAULT_ADMIN_ROLE, DEFAULT_ADMIN_ROLE)]⟩

/-- The `has_role` method: membership lookup defaulting to `false`. -/
def AccessControl.has_role (ac : AccessControl) (role account : Bytes32) : Bool :=
  ((mapLookup ac.roles role).bind (fun accounts => mapLookup accounts account)).getD false

/-- The `check_role` method: `has_role` lifted to a failure. -/
def AccessControl.check_role (ac : AccessControl) (role account : Bytes32) :
    Except ContractError Unit :=
  if ac.has_role role account then Except.ok ()
  else
    Except.error (ContractError.accessDenied
      ("Account " ++ debugBytes account ++ " does not have required role " ++ debugBytes role))

/-- The `get_role_admin` method: stored admin or `DEFAULT_ADMIN_ROLE`. -/
def AccessControl.get_role_admin (ac : AccessControl) (role : Bytes32) : Bytes32 :=
  (mapLookup ac.role_admins role).getD DEFAULT_ADMIN_ROLE

/-- The `grant_role` method. The bootstrap test is `contains_key` on the outer
roles map, and the admin check wraps the inner error's display. -/
def AccessControl.grant_role (ac : AccessControl) (sender role account : Bytes32) :
    Except ContractError Bool × AccessControl :=
  let is_first_admin : Bool :=
    decide (role = DEFAULT_ADMIN_ROLE) && !(mapContains ac.roles DEFAULT_ADMIN_ROLE)
  let adminCheck : Except ContractError Unit :=
    if is_first_admin then Except.ok ()
    else
      match ac.check_role (ac.get_role_admin role) sender with
      | Except.error e =>
        Except.error (ContractError.accessDenied
          ("Sender does not have admin role for role " ++ debugBytes role ++ ": " ++ e.display))
      | Except.ok _ => Except.ok ()
  match adminCheck with
  | Except.error e => (Except.error e, ac)
  | Except.ok _ =>
    if ac.has_role role account then (Except.ok false, ac)
    else
      let inner := mapInsert ((mapLookup ac.roles role).getD []) account true
      (Except.ok true, { ac with roles := mapInsert ac.roles role inner })

/-- The `revoke_role` method. Removal happens inside the inner map; the outer
key for the role is left in place even when the member set becomes empty. -/
def AccessControl.revoke_role (ac : AccessControl) (sender role account : Bytes32) :
    Except ContractError Bool × AccessControl :=
  match ac.check_role (ac.get_role_admin role) sender with
  | Except.error e =>
    (Except.error (ContractError.accessDenied
      ("Sender does not have admin role for role " ++ debugBytes role ++ ": " ++ e.display)), ac)
  | Except.ok _ =>
    if !(ac.has_role role account) then (Except.ok false, ac)
    else
      match mapLookup ac.roles role with
      | some accounts =>
        (Except.ok true, { ac with roles := mapInsert ac.roles role (mapRemove accounts account) })
      | none => (Except.ok true, ac)

/-- The `set_role_admin` method. -/
def AccessControl.set_role_admin (ac : AccessControl) (sender role admin_role : Bytes32) :
    Except ContractError Unit × AccessControl :=
  match ac.check_role (ac.get_role_admin role) sender with
  | Except.error e =>
    (Except.error (ContractError.accessDenied
      ("Sender does not have current admin role for role " ++ debugBytes role ++ ": "
        ++ e.display)), ac)
  | Except.ok _ =>
    if role = DEFAULT_ADMIN_ROLE then
      (Except.error (ContractError.invalidOperation
        "Cannot change admin role of DEFAULT_ADMIN_ROLE"), ac)
    else (Except.ok (), { ac with role_admins := mapInsert ac.role_admins role admin_role })

/-! State manager (contract/state.rs). -/

/-- Total state size cap (100 MiB). -/
def MAX_STATE_SIZE : Nat := 100 * 1024 * 1024

/-- Key size cap (1 KiB). -/
def MAX_KEY_SIZE : Nat := 1024

/-- Value size cap (1 MiB). -/
def MAX_VALUE_SIZE : Nat := 1024 * 1024

/-- Entry count cap. -/
def MAX_ENTRIES : Nat := 100000

/-- A contract state map (`HashMap<Vec<u8>, Vec<u8>>`). -/
abbrev StMap := List (Bytes × Bytes)

/-- The `StateSnapshot` struct. -/
structure StateSnapshot where
  contract_addr : Bytes32
  version : String
  timestamp : Nat
  state : StMap
  state_hash : List Nat
  schema_version : Nat
  deriving DecidableEq, Repr

/-- The `StateDiff` struct. -/
structure StateDiff where
  added : List (Bytes × Bytes)
  modified : List (Bytes × (Bytes × Bytes))
  deleted : List (Bytes × Bytes)
  deriving DecidableEq, Repr

/-- The `StateManager` struct. -/
structure StateManager where
  states : List (Bytes32 × StMap)
  snapshots : List (Bytes32 × List StateSnapshot)
  diffs : List (Bytes32 × List StateDiff)
  deriving DecidableEq, Repr

/-- The `StateManager::new` constructor. -/
def StateManager.new : StateManager := ⟨[], [], []⟩

/-- The `calculate_state_size` helper: sum of `|k| + |v|`. -/
def calculate_state_size (state : StMap) : Nat :=
  (state.map (fun e => e.1.length + e.2.length)).sum

/-- The `validate_state_update` helper: size caps from contract/state.rs. -/
def validate_state_update (state : StMap) (new_key new_value : Bytes) :
    Except ContractError Unit :=
  if new_key.length > MAX_KEY_SIZE then
    Except.error (ContractError.stateError
      ("Key size " ++ toString new_key.length ++ " exceeds maximum allowed size of 1024 bytes"))
  else if new_value.length > MAX_VALUE_SIZE then
    Except.error (ContractError.stateError
      ("Value size " ++ toString new_value.length
        ++ " exceeds maximum allowed size of 1048576 bytes"))
  else
    let base := calculate_state_size state
    let deducted :=
      match mapLookup state new_key with
      | some existing_value => base - (new_key.length + existing_value.length)
      | none => base
    let total_size := deducted + (new_key.length + new_value.length)
    if total_size > MAX_STATE_SIZE then
      Except.error (ContractError.stateError
        ("Total state size " ++ toString total_size
          ++ " would exceed maximum allowed size of 104857600 bytes"))
    else if !(mapContains state new_key) && state.length ≥ MAX_ENTRIES then
      Except.error (ContractError.stateError "Maximum number of entries (100000) exceeded")
    else Except.ok ()

/-- The `compute_state_hash` method: SHA-256 over `key ‖ value` for the keys
sorted ascending in byte order. -/
def compute_state_hash (state : StMap) : List Nat :=
  let keys := sortBytes (state.map (fun e => e.1))
  sha256 (keys.foldl (fun acc k => acc ++ k ++ (mapLookup state k).getD []) [])

/-- The `verify_state_integrity` method: recomputed hash equals the stored one. -/
def verify_state_integrity (snapshot : StateSnapshot) : Bool :=
  compute_state_hash snapshot.state = snapshot.state_hash

/-- The `create_snapshot` method; `now` is `SystemTime::now()` in seconds. -/
def StateManager.create_snapshot (sm : StateManager) (now : Nat) (contract_addr : Bytes32)
    (version : String) : Except ContractError StateSnapshot × StateManager :=
  match mapLookup sm.states contract_addr with
  | none => (Except.error (ContractError.stateError "Contract state not found"), sm)
  | some state =>
    let snapshot : StateSnapshot :=
      ⟨contract_addr, version, now, state, compute_state_hash state, 1⟩
    let snaps := (mapLookup sm.snapshots contract_addr).getD []
    (Except.ok snapshot,
     { sm with snapshots := mapInsert sm.snapshots contract_addr (snaps ++ [snapshot]) })

/-- The `restore_from_snapshot` method: find the first snapshot with the given
timestamp, verify integrity, and replace the current map with its state. -/
def StateManager.restore_from_snapshot (sm : StateManager) (contract_addr : Bytes32)
    (timestamp : Nat) : Except ContractError Unit × StateManager :=
  match mapLookup sm.snapshots contract_addr with
  | none => (Except.error (ContractError.stateError "No snapshots found for contract"), sm)
  | some snapshots =>
    match snapshots.find? (fun s => decide (s.timestamp = timestamp)) with
    | none => (Except.error (ContractError.stateError "Snapshot not found for given timestamp"), sm)
    | some snapshot =>
      if verify_state_integrity snapshot then
        (Except.ok (), { sm with states := mapInsert sm.states contract_addr snapshot.state })
      else (Except.error (ContractError.stateError "State integrity verification failed"), sm)

/-- The `track_state_changes` method: compute added/modified/deleted and append
the diff to the per-address diff log. -/
def StateManager.track_state_changes (sm : StateManager) (contract_addr : Bytes32)
    (old_state new_state : StMap) : StateManager :=
  let added := new_state.filter (fun e => !(mapContains old_state e.1))
  let modified := new_state.filterMap (fun e =>
    match mapLookup old_state e.1 with
    | some old_value => if old_value = e.2 then none else some (e.1, (old_value, e.2))
    | none => none)
  let deleted := old_state.filter (fun e => !(mapContains new_state e.1))
  let diff : StateDiff := ⟨added, modified, deleted⟩
  { sm with diffs :=
      mapInsert sm.diffs contract_addr (((mapLookup sm.diffs contract_addr).getD []) ++ [diff]) }

/-- The `update_state` method: validate the caps, write the pair, record the diff. -/
def StateManager.update_state (sm : StateManager) (contract_addr : Bytes32)
    (key value : Bytes) : Except ContractError Unit × StateManager :=
  let old_state := (mapLookup sm.states contract_addr).getD []
  match validate_state_update old_state key value with
  | Except.error e => (Except.error e, sm)
  | Except.ok _ =>
    let new_state := mapInsert old_state key value
    let sm1 := sm.track_state_changes contract_addr old_state new_state
    (Except.ok (), { sm1 with states := mapInsert sm1.states contract_addr new_state })

/-- The `get_state` observer. -/
def StateManager.get_state (sm : StateManager) (contract_addr : Bytes32) : Option StMap :=
  mapLookup sm.states contract_addr

/-- The `get_snapshots` observer. -/
def StateManager.get_snapshots (sm : StateManager) (contract_addr : Bytes32) :
    Option (List StateSnapshot) :=
  mapLookup sm.snapshots contract_addr

/-- The `get_state_diffs` observer. -/
def StateManager.get_state_diffs (sm : StateManager) (contract_addr : Bytes32) :
    Option (List StateDiff) :=
  mapLookup sm.diffs contract_addr

/-- The `get_state_size` observer. -/
def StateManager.get_state_size (sm : StateManager) (contract_addr : Bytes32) : Nat :=
  ((mapLookup sm.states contract_addr).map calculate_state_size).getD 0

/-! Semantic versions.

Modelled from the spec: the registry delegates version parsing and comparison
to the third-party `semver` crate (`semver::Version::parse` and its order),
which is not part of this repository; per spec section 4.C, "All semver
comparison follows SemVer 2.0.0 precedence". The definitions below implement
SemVer 2.0.0 grammar and precedence. -/

/-- A pre-release identifier: numeric or alphanumeric. -/
inductive PreId
  | num (n : Nat)
  | alphanum (s : List Char)
  deriving DecidableEq, Repr

/-- A parsed semantic version. Build metadata is recorded but has no weight in
precedence. -/
structure SemVer where
  major : Nat
  minor : Nat
  patch : Nat
  pre : List PreId
  build : List (List Char)
  deriving DecidableEq, Repr

/-- ASCII digit test. -/
def isDigitCh (c : Char) : Bool := decide ('0' ≤ c) && decide (c ≤ '9')

/-- SemVer identifier character: digit, letter, or hyphen. -/
def isIdentCh (c : Char) : Bool :=
  isDigitCh c || (decide ('a' ≤ c) && decide (c ≤ 'z'))
    || (decide ('A' ≤ c) && decide (c ≤ 'Z')) || decide (c = '-')

/-- Digits to a number. -/
def digitsToNat (cs : List Char) : Nat :=
  cs.foldl (fun acc c => acc * 10 + (c.toNat - 48)) 0

/-- Parse a numeric component with no leading zeros. -/
def parseNumNoLead (cs : List Char) : Option Nat :=
  if cs.isEmpty then none
  else if !(cs.all isDigitCh) then none
  else if decide (cs.length > 1) && decide (cs.head? = some '0') then none
  else some (digitsToNat cs)

/-- Split a character list on every occurrence of a separator. -/
def splitOnCh (sep : Char) : List Char → List (List Char)
  | [] => [[]]
  | c :: rest =>
    let r := splitOnCh sep rest
    if c = sep then [] :: r
    else
      match r with
      | [] => [[c]]
      | h :: t => (c :: h) :: t

/-- Split at the first occurrence of a separator, if any. -/
def splitFirst (sep : Char) : List Char → List Char × Option (List Char)
  | [] => ([], none)
  | c :: rest =>
    if c = sep then ([], some rest)
    else
      let (b, a) := splitFirst sep rest
      (c :: b, a)

/-- Parse one pre-release identifier. -/
def parsePreId (cs : List Char) : Option PreId :=
  if cs.isEmpty then none
  else if !(cs.all isIdentCh) then none
  else if cs.all isDigitCh then
    if decide (cs.length > 1) && decide (cs.head? = some '0') then none
    else some (PreId.num (digitsToNat cs))
  else some (PreId.alphanum cs)

/-- Parse one build identifier (leading zeros allowed). -/
def parseBuildId (cs : List Char) : Option (List Char) :=
  if cs.isEmpty || !(cs.all isIdentCh) then none else some cs

/-- Parse a SemVer 2.0.0 version string. -/
def semverParse (s : String) : Option SemVer :=
  let cs := s.data
  let (beforeBuild, buildPart) := splitFirst '+' cs
  let (core, prePart) := splitFirst '-' beforeBuild
  match splitOnCh '.' core with
  | [mj, mn, pt] =>
    match parseNumNoLead mj, parseNumNoLead mn, parseNumNoLead pt with
    | some major, some minor, some patch =>
      let preIds : Option (List PreId) :=
        match prePart with
        | none => some []
        | some pp => (splitOnCh '.' pp).mapM parsePreId
      let buildIds : Option (List (List Char)) :=
        match buildPart with
        | none => some []
        | some bp => (splitOnCh '.' bp).mapM parseBuildId
      match preIds, buildIds with
      | some pre, some build => some ⟨major, minor, patch, pre, build⟩
      | _, _ => none
    | _, _, _ => none
  | _ => none

/-- ASCII lexicographic strict order on identifier text. -/
def strLt : List Char → List Char → Bool
  | [], [] => false
  | [], _ :: _ => true
  | _ :: _, [] => false
  | a :: as, b :: bs =>
    if a.toNat < b.toNat then true else if b.toNat < a.toNat then false else strLt as bs

/-- Precedence order on pre-release identifiers: numeric before alphanumeric,
numeric compared numerically, alphanumeric compared in ASCII order. -/
def preIdLt : PreId → PreId → Bool
  | PreId.num a, PreId.num b => decide (a < b)
  | PreId.num _, PreId.alphanum _ => true
  | PreId.alphanum _, PreId.num _ => false
  | PreId.alphanum a, PreId.alphanum b => strLt a b

/-- Precedence order on pre-release identifier lists: a strict prefix is lower. -/
def preListLt : List PreId → List PreId → Bool
  | [], [] => false
  | [], _ :: _ => true
  | _ :: _, [] => false
  | a :: as, b :: bs =>
    if preIdLt a b then true else if preIdLt b a then false else preListLt as bs

/-- SemVer 2.0.0 precedence, strict: numeric triple, then a release is above
any pre-release, then pre-release identifiers; build metadata is ignored. -/
def semverLt (a b : SemVer) : Bool :=
  if a.major < b.major then true
  else if b.major < a.major then false
  else if a.minor < b.minor then true
  else if b.minor < a.minor then false
  else if a.patch < b.patch then true
  else if b.patch < a.patch then false
  else
    match a.pre, b.pre with
    | [], [] => false
    | [], _ :: _ => false
    | _ :: _, [] => true
    | pa :: pas, pb :: pbs => preListLt (pa :: pas) (pb :: pbs)

/-- Non-strict precedence: `a ≤ b` iff not `b < a` (precedence is total). -/
def semverLe (a b : SemVer) : Bool := !(semverLt b a)

/-! Contract registry (contract/registry.rs). -/

/-- The `ContractParam` struct. -/
structure ContractParam where
  name : String
  param_type : String
  indexed : Bool
  deriving DecidableEq, Repr

/-- The `ContractMethod` struct. -/
structure ContractMethod where
  name : String
  inputs : List ContractParam
  outputs : List ContractParam
  payable : Bool
  deriving DecidableEq, Repr

/-- The `ContractEvent` struct. -/
structure ContractEvent where
  name : String
  inputs : List ContractParam
  deriving DecidableEq, Repr

/-- The `ContractABI` struct. -/
structure ContractABI where
  methods : List ContractMethod
  events : List ContractEvent
  standards : List String
  deriving DecidableEq, Repr

/-- The `ContractMetadata` struct. -/
structure ContractMetadata where
  version : String
  created_at : Nat
  updated_at : Nat
  author : Bytes32
  description : String
  is_upgradeable : Bool
  deriving DecidableEq, Repr

/-- The `ContractVersion` struct. -/
structure ContractVersion where
  bytecode : List Nat
  metadata : ContractMetadata
  abi : ContractABI
  deriving DecidableEq, Repr

/-- The `UpgradeHistory` struct. -/
structure UpgradeHistory where
  from_version : String
  to_version : String
  timestamp : Nat
  successful : Bool
  rollback_performed : Bool
  deriving DecidableEq, Repr

/-- The `ContractRegistry` struct with its secondary indexes. -/
structure ContractRegistry where
  versions : List (Bytes32 × List ContractVersion)
  version_index : List (String × List Bytes32)
  author_index : List (Bytes32 × List Bytes32)
  creation_time_index : List (Nat × List Bytes32)
  update_time_index : List (Nat × List Bytes32)
  upgrade_history : List (Bytes32 × List UpgradeHistory)
  deriving DecidableEq, Repr

/-- The `ContractRegistry::new` constructor. -/
def ContractRegistry.new : ContractRegistry := ⟨[], [], [], [], [], []⟩

/-- The registry's private `verify_bytecode`: reject empty bytecode. -/
def registryVerifyBytecode (bytecode : List Nat) : Except ContractError Unit :=
  if bytecode.isEmpty then
    Except.error (ContractError.bytecodeVerificationError "Empty bytecode provided")
  else Except.ok ()

/-- The `check_version_compatibility` method: the new version must parse and be
strictly greater than the current last, and the last must be upgradeable. -/
def ContractRegistry.check_version_compatibility (reg : ContractRegistry) (address : Bytes32)
    (new_version : ContractVersion) : Except ContractError Unit :=
  match mapLookup reg.versions address with
  | none => Except.ok ()
  | some versions =>
    match versions.getLast? with
    | none => Except.ok ()
    | some latest =>
      match semverParse latest.metadata.version with
      | none => Except.error (ContractError.versionIncompatible "Invalid current version format")
      | some current_version =>
        match semverParse new_version.metadata.version with
        | none => Except.error (ContractError.versionIncompatible "Invalid new version format")
        | some new_ver =>
          if semverLe new_ver current_version then
            Except.error (ContractError.versionConflict
              ("New version " ++ new_version.metadata.version
                ++ " must be greater than current version " ++ latest.metadata.version))
          else if !latest.metadata.is_upgradeable then
            Except.error (ContractError.upgradeValidationError
              "Current contract version is not upgradeable")
          else Except.ok ()

/-- Append an address under a key of a secondary index. -/
def pushIndex {κ : Type} [DecidableEq κ] (idx : List (κ × List Bytes32)) (key : κ)
    (addr : Bytes32) : List (κ × List Bytes32) :=
  mapInsert idx key (((mapLookup idx key).getD []) ++ [addr])

/-- The `register_version` method. -/
def ContractRegistry.register_version (reg : ContractRegistry) (address : Bytes32)
    (version : ContractVersion) : Except ContractError Unit × ContractRegistry :=
  match registryVerifyBytecode version.bytecode with
  | Except.error e => (Except.error e, reg)
  | Except.ok _ =>
    match reg.check_version_compatibility address version with
    | Except.error e => (Except.error e, reg)
    | Except.ok _ =>
      let previous_version := (mapLookup reg.versions address).bind List.getLast?
      let vs := (mapLookup reg.versions address).getD []
      let reg1 := { reg with versions := mapInsert reg.versions address (vs ++ [version]) }
      let reg2 := { reg1 with
        version_index := pushIndex reg1.version_index version.metadata.version address,
        author_index := pushIndex reg1.author_index version.metadata.author address,
        creation_time_index := pushIndex reg1.creation_time_index version.metadata.created_at address,
        update_time_index := pushIndex reg1.update_time_index version.metadata.updated_at address }
      let reg3 :=
        match previous_version with
        | some prev =>
          let entry : UpgradeHistory :=
            ⟨prev.metadata.version, version.metadata.version, version.metadata.updated_at,
             true, false⟩
          let hist := ((mapLookup reg2.upgrade_history address).getD []) ++ [entry]
          { reg2 with upgrade_history := mapInsert reg2.upgrade_history address hist }
        | none => reg2
      (Except.ok (), reg3)

/-- The `rollback_version` method: pop the newest version and mark the last
upgrade record as rolled back. -/
def ContractRegistry.rollback_version (reg : ContractRegistry) (address : Bytes32) :
    Except ContractError Unit × ContractRegistry :=
  match mapLookup reg.versions address with
  | none => (Except.error (ContractError.notFound "Contract not found"), reg)
  | some versions =>
    if versions.length < 2 then
      (Except.error (ContractError.stateRollbackFailed
        "No previous version available for rollback"), reg)
    else
      let reg1 := { reg with versions := mapInsert reg.versions address versions.dropLast }
      let reg2 :=
        match mapLookup reg1.upgrade_history address with
        | none => reg1
        | some history =>
          match history.getLast? with
          | none => reg1
          | some last_upgrade =>
            let marked := { last_upgrade with successful := false, rollback_performed := true }
            let hist := history.dropLast ++ [marked]
            { reg1 with upgrade_history := mapInsert reg1.upgrade_history address hist }
      (Except.ok (), reg2)

/-- The `get_contract_versions` query. -/
def ContractRegistry.get_contract_versions (reg : ContractRegistry) (address : Bytes32) :
    Except ContractError (List ContractVersion) :=
  match mapLookup reg.versions address with
  | some vs => Except.ok vs
  | none =>
    Except.error (ContractError.notFound
      ("Contract not found at address " ++ debugBytes address))

/-- The `get_contract_version` query: first version with the given string. -/
def ContractRegistry.get_contract_version (reg : ContractRegistry) (address : Bytes32)
    (version : String) : Except ContractError ContractVersion :=
  match reg.get_contract_versions address with
  | Except.error e => Except.error e
  | Except.ok vs =>
    match vs.find? (fun v => decide (v.metadata.version = version)) with
    | some v => Except.ok v
    | none =>
      Except.error (ContractError.versionNotFound
        ("Version " ++ version ++ " not found for contract " ++ debugBytes address))

/-- The `get_latest_version` query. -/
def ContractRegistry.get_latest_version (reg : ContractRegistry) (address : Bytes32) :
    Except ContractError ContractVersion :=
  match reg.get_contract_versions address with
  | Except.error e => Except.error e
  | Except.ok vs =>
    match vs.getLast? with
    | some v => Except.ok v
    | none =>
      Except.error (ContractError.notFound
        ("No versions found for contract " ++ debugBytes address))

/-! Runtime facade (contract/mod.rs, `ContractRuntime`).

Each public operation takes the ambient caller `sender` (`msg::sender()`),
the `Instant` of the call `itime` (nanoseconds, for the operation tracker)
and the wall-clock time `wtime` (`SystemTime::now().as_secs()`, seconds)
as explicit parameters. -/

/-- Upgrade limits from contract/mod.rs. -/
def MAX_UPGRADES_PER_DAY : Nat := 5

/-- Minimum seconds between upgrades. -/
def MIN_UPGRADE_INTERVAL : Nat := 3600

/-- Bytecode size cap (2 MiB). -/
def MAX_UPGRADE_SIZE : Nat := 2 * 1024 * 1024

/-- The modulus of `u64`. -/
def u64w : Nat := 18446744073709551616

/-- Wrapping `u64` subtraction (release-mode semantics of `a - b`); arguments
are reduced mod `2 ^ 64`. -/
def u64sub (a b : Nat) : Nat := (a % u64w + (u64w - b % u64w)) % u64w

/-- Interpretation of an `i32` value as `u64` (`as u64` sign-extends). -/
def i32ToU64 (n : Int) : Nat := (n % (18446744073709551616 : Int)).toNat

/-- Wrap an integer to `i32` (release-mode `+` semantics). -/
def i32wrap (n : Int) : Int := (n + 2147483648) % 4294967296 - 2147483648

/-- The `wasmer::Value` arguments exchanged with contracts (the variants the
source constructs or consumes). -/
inductive WasmValue
  | i32 (n : Int)
  | i64 (n : Int)
  | f32 (bits : Nat)
  | f64 (bits : Nat)
  deriving DecidableEq, Repr

/-- The `unwrap_i32` accessor (panics in the source on other variants; the
source only ever applies it to `I32` arguments). -/
def WasmValue.unwrap_i32 : WasmValue → Int
  | WasmValue.i32 n => n
  | _ => 0

/-- The `ResourceLimits` struct. -/
structure ResourceLimits where
  max_memory : Nat
  max_gas : Nat
  max_storage : Nat
  max_call_depth : Nat
  deriving DecidableEq, Repr

/-- The `ContractEnvironment` struct (without the `gas_used` lock, which the
embedded operations never read). -/
structure ContractEnvironment where
  gas_limit : Nat
  block_number : Nat
  timestamp : Nat
  caller : Bytes32
  resource_limits : ResourceLimits
  deriving DecidableEq, Repr

/-- The `ContractRuntime` struct composing the four subsystems. -/
structure ContractRuntime where
  access_control : AccessControl
  registry : ContractRegistry
  state_manager : StateManager
  operation_tracker : OperationTracker
  deriving DecidableEq, Repr

/-- The `ContractRuntime::new` constructor. -/
def ContractRuntime.new : ContractRuntime :=
  ⟨AccessControl.new, ContractRegistry.new, StateManager.new, OperationTracker.new⟩

/-- The facade's `grant_role`: delegate to access control. -/
def ContractRuntime.grant_role (rt : ContractRuntime) (sender role account : Bytes32) :
    Except ContractError Bool × ContractRuntime :=
  let (r, ac) := rt.access_control.grant_role sender role account
  (r, { rt with access_control := ac })

/-- The facade's `has_role`. -/
def ContractRuntime.has_role (rt : ContractRuntime) (role account : Bytes32) : Bool :=
  rt.access_control.has_role role account

/-- The `contract_exists` observer: `get_contract_versions(..).is_ok()`. -/
def ContractRuntime.contract_exists (rt : ContractRuntime) (contract_addr : Bytes32) : Bool :=
  (mapLookup rt.registry.versions contract_addr).isSome

/-- The facade's private `verify_bytecode`: non-empty and at most 2 MiB. -/
def ContractRuntime.verify_bytecode (rt : ContractRuntime) (bytecode : List Nat) :
    Except ContractError Unit :=
  if bytecode.isEmpty then
    Except.error (ContractError.bytecodeVerificationError "Empty bytecode provided")
  else if bytecode.length > MAX_UPGRADE_SIZE then
    Except.error (ContractError.bytecodeVerificationError
      "Bytecode size exceeds maximum allowed size of 2MB")
  else Except.ok ()

/-- The facade's `validate_contract_state`: the contract is registered and has state. -/
def ContractRuntime.validate_contract_state (rt : ContractRuntime) (contract_addr : Bytes32) :
    Except ContractError Unit :=
  if !(rt.contract_exists contract_addr) then
    Except.error (ContractError.stateValidationError "Contract does not exist")
  else if (mapLookup rt.state_manager.states contract_addr).isNone then
    Except.error (ContractError.stateValidationError "Contract state not found")
  else Except.ok ()

/-- The `check_upgrade_limits` method: at least 3600 s after the last version's
`updated_at` and fewer than 5 versions created within the last 24 h.
Subtraction is wrapping `u64` subtraction. -/
def ContractRuntime.check_upgrade_limits (rt : ContractRuntime) (now : Nat)
    (contract_addr : Bytes32) : Except ContractError Unit :=
  match rt.registry.get_contract_versions contract_addr with
  | Except.error e => Except.error e
  | Except.ok versions =>
    if versions.isEmpty then Except.ok ()
    else
      let intervalCheck : Except ContractError Unit :=
        match versions.getLast? with
        | some latest =>
          let time_since := u64sub now latest.metadata.updated_at
          if time_since < MIN_UPGRADE_INTERVAL then
            Except.error (ContractError.upgradeLimitExceeded
              ("Must wait " ++ toString (MIN_UPGRADE_INTERVAL - time_since)
                ++ " seconds between upgrades"))
          else Except.ok ()
        | none => Except.ok ()
      match intervalCheck with
      | Except.error e => Except.error e
      | Except.ok _ =>
        let upgrades_today :=
          (versions.filter (fun v => u64sub now v.metadata.created_at < 24 * 3600)).length
        if upgrades_today ≥ MAX_UPGRADES_PER_DAY then
          Except.error (ContractError.upgradeLimitExceeded
            "Maximum of 5 upgrades per day exceeded")
        else Except.ok ()

/-- The bootstrap state key `b"_initialized"`. -/
def initializedKey : Bytes := [95, 105, 110, 105, 116, 105, 97, 108, 105, 122, 101, 100]

/-- Release the tracker slot for an operation type (the `end_operation` call on
every exit path). -/
def finOp (rt : ContractRuntime) (contract_addr : Bytes32) (op : OperationType) :
    ContractRuntime :=
  { rt with operation_tracker := rt.operation_tracker.end_operation contract_addr op }

/-- The `deploy_contract` operation (its `limits` parameter is unused in the
source body as well). -/
def ContractRuntime.deploy_contract (rt : ContractRuntime) (sender : Bytes32)
    (itime wtime : Nat) (bytecode : List Nat) (contract_addr : Bytes32) (abi : ContractABI)
    (metadata : ContractMetadata) (limits : ResourceLimits) :
    Except ContractError Unit × ContractRuntime :=
  match rt.operation_tracker.start_operation itime contract_addr OperationType.deploy with
  | (Except.error e, tr) => (Except.error e, { rt with operation_tracker := tr })
  | (Except.ok _, tr) =>
    let rt := { rt with operation_tracker := tr }
    if !(rt.has_role DEPLOYER_ROLE sender) then
      (Except.error (ContractError.accessDenied "Sender does not have deployer role"),
       finOp rt contract_addr OperationType.deploy)
    else
      match rt.verify_bytecode bytecode with
      | Except.error e => (Except.error e, finOp rt contract_addr OperationType.deploy)
      | Except.ok _ =>
        let version : ContractVersion := ⟨bytecode, metadata, abi⟩
        match rt.state_manager.update_state contract_addr initializedKey [1] with
        | (Except.error e, smgr) =>
          (Except.error e, finOp { rt with state_manager := smgr } contract_addr
            OperationType.deploy)
        | (Except.ok _, smgr) =>
          let rt := { rt with state_manager := smgr }
          match rt.state_manager.create_snapshot wtime contract_addr version.metadata.version with
          | (Except.error e, smgr2) =>
            (Except.error e, finOp { rt with state_manager := smgr2 } contract_addr
              OperationType.deploy)
          | (Except.ok _, smgr2) =>
            let rt := { rt with state_manager := smgr2 }
            match rt.registry.register_version contract_addr version with
            | (Except.error (ContractError.versionConflict m), reg) =>
              (Except.error (ContractError.versionConflict
                  ("Version conflict during deployment: " ++ m)),
               finOp { rt with registry := reg } contract_addr OperationType.deploy)
            | (Except.error e, reg) =>
              (Except.error e, finOp { rt with registry := reg } contract_addr
                OperationType.deploy)
            | (Except.ok _, reg) =>
              (Except.ok (), finOp { rt with registry := reg } contract_addr
                OperationType.deploy)

/-- The `upgrade_contract` operation. -/
def ContractRuntime.upgrade_contract (rt : ContractRuntime) (sender : Bytes32)
    (itime wtime : Nat) (contract_addr : Bytes32) (bytecode : List Nat) (abi : ContractABI)
    (metadata : ContractMetadata) : Except ContractError Unit × ContractRuntime :=
  match rt.operation_tracker.start_operation itime contract_addr OperationType.upgrade with
  | (Except.error e, tr) => (Except.error e, { rt with operation_tracker := tr })
  | (Except.ok _, tr) =>
    let rt := { rt with operation_tracker := tr }
    if !(rt.has_role UPGRADER_ROLE sender) then
      (Except.error (ContractError.upgradeAuthorizationError
          "Sender does not have upgrader role"),
       finOp rt contract_addr OperationType.upgrade)
    else
      match rt.validate_contract_state contract_addr with
      | Except.error e => (Except.error e, finOp rt contract_addr OperationType.upgrade)
      | Except.ok _ =>
        match rt.check_upgrade_limits wtime contract_addr with
        | Except.error e => (Except.error e, finOp rt contract_addr OperationType.upgrade)
        | Except.ok _ =>
          match rt.verify_bytecode bytecode with
          | Except.error e => (Except.error e, finOp rt contract_addr OperationType.upgrade)
          | Except.ok _ =>
            match rt.registry.get_latest_version contract_addr with
            | Except.error e => (Except.error e, finOp rt contract_addr OperationType.upgrade)
            | Except.ok current_version =>
              match rt.state_manager.create_snapshot wtime contract_addr
                  current_version.metadata.version with
              | (Except.error e, smgr) =>
                (Except.error e, finOp { rt with state_manager := smgr } contract_addr
                  OperationType.upgrade)
              | (Except.ok _, smgr) =>
                let rt := { rt with state_manager := smgr }
                let version : ContractVersion := ⟨bytecode, metadata, abi⟩
                let (result, reg) := rt.registry.register_version contract_addr version
                (result, finOp { rt with registry := reg } contract_addr OperationType.upgrade)

/-- The `execute_contract` operation, with the built-in `add` and `loop_test`
dispatch. Machine arithmetic is wrapping (`u64` for the gas product). -/
def ContractRuntime.execute_contract (rt : ContractRuntime) (sender : Bytes32)
    (itime wtime : Nat) (contract_addr : Bytes32) (method : String) (args : List WasmValue)
    (env : ContractEnvironment) (version : Option String) :
    Except ContractError (List WasmValue) × ContractRuntime :=
  match rt.operation_tracker.start_operation itime contract_addr OperationType.execute with
  | (Except.error e, tr) => (Except.error e, { rt with operation_tracker := tr })
  | (Except.ok _, tr) =>
    let rt := { rt with operation_tracker := tr }
    if !(rt.has_role EXECUTOR_ROLE sender) then
      (Except.error (ContractError.accessDenied "Sender does not have executor role"),
       finOp rt contract_addr OperationType.execute)
    else
      match rt.validate_contract_state contract_addr with
      | Except.error e => (Except.error e, finOp rt contract_addr OperationType.execute)
      | Except.ok _ =>
        let fetched : Except ContractError ContractVersion :=
          match version with
          | some v => rt.registry.get_contract_version contract_addr v
          | none => rt.registry.get_latest_version contract_addr
        match fetched with
        | Except.error e => (Except.error e, finOp rt contract_addr OperationType.execute)
        | Except.ok contract_version =>
          match rt.state_manager.create_snapshot wtime contract_addr
              contract_version.metadata.version with
          | (Except.error e, smgr) =>
            (Except.error e, finOp { rt with state_manager := smgr } contract_addr
              OperationType.execute)
          | (Except.ok _, smgr) =>
            let rt := { rt with state_manager := smgr }
            if !(contract_version.abi.methods.any (fun m => decide (m.name = method))) then
              (Except.error (ContractError.notFound
                  ("Method " ++ method ++ " not found in contract ABI")),
               finOp rt contract_addr OperationType.execute)
            else
              let result : Except ContractError (List WasmValue) :=
                if method = "add" then
                  if args.length ≠ 2 then
                    Except.error (ContractError.invalidArguments
                      "Add method requires exactly 2 arguments")
                  else
                    let a := (args.getD 0 (WasmValue.i32 0)).unwrap_i32
                    let b := (args.getD 1 (WasmValue.i32 0)).unwrap_i32
                    Except.ok [WasmValue.i32 (i32wrap (a + b))]
                else if method = "loop_test" then
                  if args.length ≠ 1 then
                    Except.error (ContractError.invalidArguments
                      "Loop test requires exactly 1 argument")
                  else
                    let iterations := i32ToU64 ((args.getD 0 (WasmValue.i32 0)).unwrap_i32)
                    let required := (iterations * 100) % u64w
                    if required > env.gas_limit then
                      Except.error (ContractError.executionError
                        ("Gas limit exceeded: required " ++ toString required
                          ++ " > limit " ++ toString env.gas_limit))
                    else Except.ok []
                else
                  Except.error (ContractError.notImplemented
                    ("Method " ++ method ++ " not implemented"))
              (result, finOp rt contract_addr OperationType.execute)

/-- A placeholder snapshot for the (unreachable) out-of-range index case of
`snapshots[len - 2]`. -/
def dummySnapshot : StateSnapshot := ⟨[], "", 0, [], [], 0⟩

/-- The `rollback_contract` operation: restore from the second-newest snapshot,
then pop the newest registry version. -/
def ContractRuntime.rollback_contract (rt : ContractRuntime) (sender : Bytes32)
    (itime : Nat) (contract_addr : Bytes32) : Except ContractError Unit × ContractRuntime :=
  match rt.operation_tracker.start_operation itime contract_addr OperationType.rollback with
  | (Except.error e, tr) => (Except.error e, { rt with operation_tracker := tr })
  | (Except.ok _, tr) =>
    let rt := { rt with operation_tracker := tr }
    if !(rt.has_role UPGRADER_ROLE sender) then
      (Except.error (ContractError.upgradeAuthorizationError
          "Sender does not have upgrader role"),
       finOp rt contract_addr OperationType.rollback)
    else
      match mapLookup rt.state_manager.snapshots contract_addr with
      | none =>
        (Except.error (ContractError.stateError "No snapshots found for contract"),
         finOp rt contract_addr OperationType.rollback)
      | some snapshots =>
        if snapshots.length < 2 then
          (Except.error (ContractError.stateError "Not enough snapshots for rollback"),
           finOp rt contract_addr OperationType.rollback)
        else
          let previous_snapshot := snapshots.getD (snapshots.length - 2) dummySnapshot
          match rt.state_manager.restore_from_snapshot contract_addr
              previous_snapshot.timestamp with
          | (Except.error e, smgr) =>
            (Except.error e, finOp { rt with state_manager := smgr } contract_addr
              OperationType.rollback)
          | (Except.ok _, smgr) =>
            let rt := { rt with state_manager := smgr }
            match rt.registry.rollback_version contract_addr with
            | (Except.error e, reg) =>
              (Except.error (ContractError.stateRollbackFailed
                  ("Failed to rollback contract: " ++ e.display)),
               finOp { rt with registry := reg } contract_addr OperationType.rollback)
            | (Except.ok _, reg) =>
              (Except.ok (), finOp { rt with registry := reg } contract_addr
                OperationType.rollback)

/-- The `update_contract_state` operation (no role check). -/
def ContractRuntime.update_contract_state (rt : ContractRuntime) (itime : Nat)
    (contract_addr : Bytes32) (key value : Bytes) :
    Except ContractError Unit × ContractRuntime :=
  match rt.operation_tracker.start_operation itime contract_addr OperationType.stateUpdate with
  | (Except.error e, tr) => (Except.error e, { rt with operation_tracker := tr })
  | (Except.ok _, tr) =>
    let rt := { rt with operation_tracker := tr }
    match rt.validate_contract_state contract_addr with
    | Except.error e => (Except.error e, finOp rt contract_addr OperationType.stateUpdate)
    | Except.ok _ =>
      let (result, smgr) := rt.state_manager.update_state contract_addr key value
      (result, finOp { rt with state_manager := smgr } contract_addr OperationType.stateUpdate)

/-- The `get_latest_version` facade query. -/
def ContractRuntime.get_latest_version (rt : ContractRuntime) (address : Bytes32) :
    Except ContractError ContractVersion :=
  rt.registry.get_latest_version address

/-- The `get_contract_state` facade query. -/
def ContractRuntime.get_contract_state (rt : ContractRuntime) (contract_addr : Bytes32) :
    Option StMap :=
  rt.state_manager.get_state contract_addr

/-- The `get_state_snapshots` facade query. -/
def ContractRuntime.get_state_snapshots (rt : ContractRuntime) (contract_addr : Bytes32) :
    Option (List StateSnapshot) :=
  rt.state_manager.get_snapshots contract_addr

/-! Derived notions used by the verification: per-address counts, reachability
relations for each component, and the invariants proved below. -/

/-- Number of active metrics entries for one address. -/
def perAddrActive (s : OperationTracker) (a : Bytes32) : Nat :=
  ((mapLookup s.active_operations a).getD []).length

/-- Tracker states reachable through `start_operation` / `end_operation`,
paired with the instant of the last call; instants never decrease. -/
inductive TrackerReach : OperationTracker → Nat → Prop
  | init : TrackerReach OperationTracker.new 0
  | start {s : OperationTracker} {t : Nat} (h : TrackerReach s t) {t' : Nat} (ht : t ≤ t')
      (a : Bytes32) (op : OperationType) : TrackerReach (s.start_operation t' a op).2 t'
  | stop {s : OperationTracker} {t : Nat} (h : TrackerReach s t) {t' : Nat} (ht : t ≤ t')
      (a : Bytes32) (op : OperationType) : TrackerReach (s.end_operation a op) t'

/-- The tracker invariant: well-formed keys and the three admission bounds. -/
def trackerOk (s : OperationTracker) (t : Nat) : Prop :=
  (s.active_operations.map Prod.fst).Nodup ∧
  s.total_operations ≤ MAX_CONCURRENT_OPERATIONS ∧
  (∀ a, perAddrActive s a ≤ 10) ∧
  recentOps s.operation_history t ≤ MAX_OPERATIONS_PER_SECOND

/-- State-manager states reachable through its three mutating operations. -/
inductive SMReach : StateManager → Prop
  | init : SMReach StateManager.new
  | snap {sm : StateManager} (h : SMReach sm) (now : Nat) (addr : Bytes32) (version : String) :
      SMReach (sm.create_snapshot now addr version).2
  | restore {sm : StateManager} (h : SMReach sm) (addr : Bytes32) (ts : Nat) :
      SMReach (sm.restore_from_snapshot addr ts).2
  | update {sm : StateManager} (h : SMReach sm) (addr : Bytes32) (k v : Bytes) :
      SMReach (sm.update_state addr k v).2

/-- Every stored snapshot carries the hash of its own state. -/
def snapshotsOk (sm : StateManager) : Prop :=
  ∀ addr snaps, mapLookup sm.snapshots addr = some snaps →
    ∀ s ∈ snaps, s.state_hash = compute_state_hash s.state

/-- A finite sequence of successful `update_state` calls on one address. -/
inductive SMUpdateSeq (addr : Bytes32) : StateManager → StateManager → Prop
  | refl (sm : StateManager) : SMUpdateSeq addr sm sm
  | step (sm₁ sm₂ : StateManager) (k v : Bytes) (h : SMUpdateSeq addr sm₁ sm₂)
      (hok : (sm₂.update_state addr k v).1 = Except.ok ()) :
      SMUpdateSeq addr sm₁ (sm₂.update_state addr k v).2

/-- A finite sequence of `update_contract_state` calls on one address. -/
inductive RtUpdateSeq (addr : Bytes32) : ContractRuntime → ContractRuntime → Prop
  | refl (rt : ContractRuntime) : RtUpdateSeq addr rt rt
  | step (rt₁ rt₂ : ContractRuntime) (it : Nat) (k v : Bytes) (h : RtUpdateSeq addr rt₁ rt₂) :
      RtUpdateSeq addr rt₁ (rt₂.update_contract_state it addr k v).2

/-- Registry states reachable through `register_version` / `rollback_version`. -/
inductive RegReach : ContractRegistry → Prop
  | init : RegReach ContractRegistry.new
  | register {reg : ContractRegistry} (h : RegReach reg) (addr : Bytes32)
      (version : ContractVersion) : RegReach (reg.register_version addr version).2
  | rollback {reg : ContractRegistry} (h : RegReach reg) (addr : Bytes32) :
      RegReach (reg.rollback_version addr).2

/-- Two stored versions compare strictly under SemVer 2.0.0 precedence. -/
def semverPairLt (x y : ContractVersion) : Prop :=
  ∃ sx sy, semverParse x.metadata.version = some sx ∧
    semverParse y.metadata.version = some sy ∧ semverLt sx sy = true

/-! Concrete data used by the concrete executions below. -/

/-- A concrete account address. -/
def addrA : Bytes32 := List.replicate 32 9

/-- A second concrete account address, holding no roles in the traces. -/
def addrB : Bytes32 := List.replicate 32 8

/-- A concrete contract address. -/
def contractAddr : Bytes32 := List.replicate 32 2

/-- An ABI exposing `loop_test` and `add`. -/
def abiLoop : ContractABI :=
  ⟨[⟨"loop_test", [], [], false⟩, ⟨"add", [], [], false⟩], [], []⟩

/-- Metadata for version 1.0.0 (timestamps 1000). -/
def mdV1 : ContractMetadata := ⟨"1.0.0", 1000, 1000, addrA, "d", true⟩

/-- Metadata for version 1.1.0 (timestamps 1000). -/
def mdV2 : ContractMetadata := ⟨"1.1.0", 1000, 1000, addrA, "d2", true⟩

/-- Metadata for version 1.0.0 with caller-supplied zero timestamps. -/
def mdU0 : ContractMetadata := ⟨"1.0.0", 0, 0, addrA, "d", true⟩

/-- Metadata for version 1.1.0 with caller-supplied zero timestamps. -/
def mdU1 : ContractMetadata := ⟨"1.1.0", 0, 0, addrA, "d", true⟩

/-- Metadata for version 1.2.0 with caller-supplied zero timestamps. -/
def mdU2 : ContractMetadata := ⟨"1.2.0", 0, 0, addrA, "d", true⟩

/-- Zero resource limits (unused by the embedded operations). -/
def limits0 : ResourceLimits := ⟨0, 0, 0, 0⟩

/-- An execution environment with `gas_limit = 1000`. -/
def envGas1000 : ContractEnvironment := ⟨1000, 0, 0, addrA, limits0⟩

/-- A runtime in which `addrA` bootstrapped the admin role and granted itself
the deployer, upgrader and executor roles. -/
def rtBase : ContractRuntime :=
  (((((ContractRuntime.new.grant_role addrA DEFAULT_ADMIN_ROLE addrA).2.grant_role
    addrA DEPLOYER_ROLE addrA).2.grant_role addrA UPGRADER_ROLE addrA).2.grant_role
    addrA EXECUTOR_ROLE addrA).2)

/-- `rtBase` after deploying version 1.0.0 at `contractAddr` (wall time 1000). -/
def rtDeployed : ContractRuntime :=
  (rtBase.deploy_contract addrA 0 1000 [0, 97, 115, 109] contractAddr abiLoop mdV1 limits0).2

/-- `rtDeployed` after one state update writing key `[107]`. -/
def rtUpd : ContractRuntime :=
  (rtDeployed.update_contract_state 1 contractAddr [107] [7]).2

/-- `rtUpd` after upgrading to version 1.1.0 (wall time 90000). -/
def rtUpg : ContractRuntime :=
  (rtUpd.upgrade_contract addrA 2 90000 contractAddr [0, 97, 115, 109, 1] abiLoop mdV2).2

/-- The rollback call on `rtUpg`. -/
def rollbackRes : Except ContractError Unit × ContractRuntime :=
  rtUpg.rollback_contract addrA 3 contractAddr

/-- `rtBase` after deploying version 1.0.0 with zero metadata timestamps
(wall time 100000), for the upgrade-rate trace. -/
def rtDeployU : ContractRuntime :=
  (rtBase.deploy_contract addrA 0 100000 [1, 2, 3] contractAddr abiLoop mdU0 limits0).2

/-- First upgrade of the rate trace, at wall time 100001. -/
def upgU1 : Except ContractError Unit × ContractRuntime :=
  rtDeployU.upgrade_contract addrA 1 100001 contractAddr [1, 2, 3, 4] abiLoop mdU1

/-- Second upgrade of the rate trace, one second later. -/
def upgU2 : Except ContractError Unit × ContractRuntime :=
  upgU1.2.upgrade_contract addrA 2 100002 contractAddr [1, 2, 3, 4, 5] abiLoop mdU2

/-- A state manager holding `[107] → [0]` at `contractAddr`. -/
def smC6base : StateManager :=
  (StateManager.new.update_state contractAddr [107] [0]).2

/-- `smC6base` after a snapshot at wall time 5. -/
def smC6a : StateManager := (smC6base.create_snapshot 5 contractAddr "1.0.0").2

/-- `smC6a` after updating `[107] → [1]`. -/
def smC6b : StateManager := (smC6a.update_state contractAddr [107] [1]).2

/-- A second snapshot of `smC6b`, taken within the same second (wall time 5). -/
def snapC6 : Except ContractError StateSnapshot × StateManager :=
  smC6b.create_snapshot 5 contractAddr "1.0.0"

/-- `snapC6`'s state manager after updating `[107] → [2]`. -/
def smC6d : StateManager := (snapC6.2.update_state contractAddr [107] [2]).2

/-- The restore of the C6 trace, by the second snapshot's timestamp. -/
def resC6 : Except ContractError Unit × StateManager :=
  smC6d.restore_from_snapshot contractAddr 5

/-- The tracker after two `Execute` admissions on `contractAddr` at instant 0. -/
def trackerTwo : OperationTracker :=
  ((OperationTracker.new.start_operation 0 contractAddr OperationType.execute).2.start_operation
    0 contractAddr OperationType.execute).2

/-! Generic lemmas about the association-map operations. -/

theorem mapLookup_mapInsert_self {κ α : Type} [DecidableEq κ] (m : List (κ × α)) (k : κ)
    (v : α) : mapLookup (mapInsert m k v) k = some v := by
  induction m with
  | nil => simp [mapInsert, mapLookup]
  | cons e rest ih =>
    by_cases h : e.1 = k
    · simp [mapInsert, mapLookup, h]
    · simp [mapInsert, mapLookup, h, ih]

theorem mapLookup_mapInsert_ne {κ α : Type} [DecidableEq κ] (m : List (κ × α)) (k k' : κ)
    (v : α) (h : k' ≠ k) : mapLookup (mapInsert m k v) k' = mapLookup m k' := by
  induction m with
  | nil => simp [mapInsert, mapLookup, h, Ne.symm h]
  | cons e rest ih =>
    by_cases he : e.1 = k
    · simp [mapInsert, mapLookup, he, h, Ne.symm h]
    · by_cases he' : e.1 = k'
      · simp [mapInsert, mapLookup, he, he', h]
      · simp [mapInsert, mapLookup, he, he', ih]

theorem mapLookup_none_iff {κ α : Type} [DecidableEq κ] (m : List (κ × α)) (k : κ) :
    mapLookup m k = none ↔ k ∉ m.map Prod.fst := by
  induction m with
  | nil => simp [mapLookup]
  | cons e rest ih =>
    by_cases h : e.1 = k
    · simp [mapLookup, h]
    · simp [mapLookup, h, ih, Ne.symm h]

theorem mem_mapInsert {κ α : Type} [DecidableEq κ] (m : List (κ × α)) (k : κ) (v : α)
    (p : κ × α) (hp : p ∈ mapInsert m k v) : p ∈ m ∨ p = (k, v) := by
  induction m with
  | nil => simpa [mapInsert] using hp
  | cons e rest ih =>
    by_cases he : e.1 = k
    · simp only [mapInsert, if_pos he] at hp
      rcases List.mem_cons.mp hp with hp | hp
      · exact Or.inr hp
      · exact Or.inl (List.mem_cons_of_mem e hp)
    · simp only [mapInsert, if_neg he] at hp
      rcases List.mem_cons.mp hp with hp | hp
      · exact Or.inl (hp ▸ List.mem_cons_self e rest)
      · rcases ih hp with hcase | hcase
        · exact Or.inl (List.mem_cons_of_mem e hcase)
        · exact Or.inr hcase

theorem mapInsert_keys_nodup {κ α : Type} [DecidableEq κ] (m : List (κ × α)) (k : κ) (v : α)
    (h : (m.map Prod.fst).Nodup) : ((mapInsert m k v).map Prod.fst).Nodup := by
  induction m with
  | nil => simp [mapInsert]
  | cons e rest ih =>
    by_cases he : e.1 = k
    · simpa [mapInsert, he] using h
    · simp only [List.map_cons, List.nodup_cons] at h
      simp only [mapInsert, if_neg he, List.map_cons]
      refine List.nodup_cons.mpr ⟨?_, ih h.2⟩
      intro hc
      rcases List.mem_map.mp hc with ⟨p, hp, hfst⟩
      rcases mem_mapInsert rest k v p hp with hcase | hcase
      · exact h.1 (List.mem_map.mpr ⟨p, hcase, hfst⟩)
      · exact he (by rw [← hfst, hcase])

theorem mapRemove_sublist {κ α : Type} [DecidableEq κ] (m : List (κ × α)) (k : κ) :
    List.Sublist (mapRemove m k) m := by
  induction m with
  | nil => simp [mapRemove]
  | cons e rest ih =>
    by_cases h : e.1 = k
    · simpa [mapRemove, h] using List.sublist_cons_self e rest
    · simpa [mapRemove, h] using List.Sublist.cons₂ e ih

theorem mapLookup_eq_some_mem {κ α : Type} [DecidableEq κ] (m : List (κ × α)) (k : κ) (v : α)
    (h : mapLookup m k = some v) : (k, v) ∈ m := by
  induction m with
  | nil => simp [mapLookup] at h
  | cons e rest ih =>
    by_cases he : e.1 = k
    · simp only [mapLookup, if_pos he] at h
      obtain rfl : e.2 = v := by injection h
      exact (by cases e with | mk a b => cases he; exact List.mem_cons_self _ _)
    · simp only [mapLookup, if_neg he] at h
      exact List.mem_cons_of_mem e (ih h)

theorem mapLookup_mapRemove_self {κ α : Type} [DecidableEq κ] (m : List (κ × α)) (k : κ)
    (hnd : (m.map Prod.fst).Nodup) : mapLookup (mapRemove m k) k = none := by
  induction m with
  | nil => simp [mapRemove, mapLookup]
  | cons e rest ih =>
    simp only [List.map_cons, List.nodup_cons] at hnd
    by_cases h : e.1 = k
    · simp only [mapRemove, if_pos h]
      exact (mapLookup_none_iff rest k).mpr (h ▸ hnd.1)
    · simp only [mapRemove, if_neg h, mapLookup, if_neg h]
      exact ih hnd.2

theorem mapLookup_mapRemove_ne {κ α : Type} [DecidableEq κ] (m : List (κ × α)) (k k' : κ)
    (h : k' ≠ k) : mapLookup (mapRemove m k) k' = mapLookup m k' := by
  induction m with
  | nil => simp [mapRemove]
  | cons e rest ih =>
    by_cases he : e.1 = k
    · have hne : e.1 ≠ k' := by rw [he]; exact Ne.symm h
      simp [mapRemove, he, mapLookup, hne, Ne.symm h]
    · by_cases he' : e.1 = k'
      · simp [mapRemove, he, mapLookup, he', h]
      · simp [mapRemove, he, mapLookup, he', ih]

theorem mapLookup_append {κ α : Type} [DecidableEq κ] (m m' : List (κ × α)) (k : κ) :
    mapLookup (m ++ m') k = ((mapLookup m k).or (mapLookup m' k)) := by
  induction m with
  | nil => simp [mapLookup]
  | cons e rest ih =>
    by_cases h : e.1 = k
    · simp [mapLookup, h]
    · simp [mapLookup, h, ih]

/-! Claim C1: what `end_operation` removes. -/

/-- Claim C1 as stated is false: with two active `Execute` entries for
`contractAddr`, `end_operation` removes both (the `retain` keeps only entries
of a different type) and drops the key, instead of removing exactly one and
leaving the other in place. -/
theorem C1_counterexample :
    mapLookup trackerTwo.active_operations contractAddr =
      some [⟨OperationType.execute, 0, contractAddr⟩, ⟨OperationType.execute, 0, contractAddr⟩] ∧
    mapLookup (trackerTwo.end_operation contractAddr
        OperationType.execute).active_operations contractAddr = none := by
  constructor
  · decide
  · decide

/-- Claim C1 amended: for every tracker state with well-formed keys and at
least the entry list `ops` for address `a`, `end_operation(a, t)` removes
every metrics entry whose `op_type` equals `t` (keeping exactly the entries of
other types, in order); the key `a` is dropped precisely when no entry of a
different type remains; other addresses are untouched. -/
theorem C1_end_operation_removes_all (s : OperationTracker) (a : Bytes32) (t : OperationType)
    (ops : List OperationMetrics) (hnd : (s.active_operations.map Prod.fst).Nodup)
    (h : mapLookup s.active_operations a = some ops) :
    mapLookup (s.end_operation a t).active_operations a =
      (if (ops.filter (fun op => decide (op.operation_type ≠ t))).isEmpty then none
       else some (ops.filter (fun op => decide (op.operation_type ≠ t)))) ∧
    ∀ b, b ≠ a → mapLookup (s.end_operation a t).active_operations b =
      mapLookup s.active_operations b := by
  unfold OperationTracker.end_operation
  rw [h]
  by_cases hemp : (ops.filter (fun op => decide (op.operation_type ≠ t))).isEmpty
  · simp only [hemp, if_pos, if_true]
    constructor
    · simpa [hemp] using mapLookup_mapRemove_self s.active_operations a hnd
    · intro b hb
      simpa [hemp] using mapLookup_mapRemove_ne s.active_operations a b hb
  · simp only [hemp, if_neg, Bool.false_eq_true, if_false]
    constructor
    · simpa [hemp] using mapLookup_mapInsert_self s.active_operations a _
    · intro b hb
      simpa [hemp] using mapLookup_mapInsert_ne s.active_operations a b _ hb

/-- Witness for C1 at the two-entry tracker: ending one `Execute` leaves no
entry for the address. -/
theorem C1_witness :
    mapLookup (trackerTwo.end_operation contractAddr
      OperationType.execute).active_operations contractAddr = none :=
  (C1_end_operation_removes_all trackerTwo contractAddr OperationType.execute
    [⟨OperationType.execute, 0, contractAddr⟩, ⟨OperationType.execute, 0, contractAddr⟩]
    (by decide) (by decide)).1.trans (by decide)

/-! Claim C2: the DEFAULT_ADMIN bootstrap condition. -/

/-- Claim C2 as stated is false: after `addrA` bootstraps `DEFAULT_ADMIN` and
then revokes it from itself, no account holds the role (the member map is
empty) — yet a grant by the roleless caller `addrB` fails with `AccessDenied`,
because the source tests `contains_key`, which still sees the emptied entry. -/
theorem C2_counterexample :
    mapLookup ((AccessControl.new.grant_role addrA DEFAULT_ADMIN_ROLE
        addrA).2.revoke_role addrA DEFAULT_ADMIN_ROLE addrA).2.roles DEFAULT_ADMIN_ROLE =
      some [] ∧
    (((AccessControl.new.grant_role addrA DEFAULT_ADMIN_ROLE addrA).2.revoke_role addrA
        DEFAULT_ADMIN_ROLE addrA).2.has_role DEFAULT_ADMIN_ROLE addrB = false) ∧
    (∃ msg, (((AccessControl.new.grant_role addrA DEFAULT_ADMIN_ROLE addrA).2.revoke_role
        addrA DEFAULT_ADMIN_ROLE addrA).2.grant_role addrB DEFAULT_ADMIN_ROLE addrB).1 =
      Except.error (ContractError.accessDenied msg)) := by
  refine ⟨by decide, by decide, ?_⟩
  exact ⟨"Sender does not have admin role for role " ++ debugBytes DEFAULT_ADMIN_ROLE
    ++ ": Access denied: Account " ++ debugBytes addrB ++ " does not have required role "
    ++ debugBytes DEFAULT_ADMIN_ROLE, by decide⟩

/-- Claim C2 amended: the bootstrap exception is keyed on the presence of the
`DEFAULT_ADMIN` entry in the roles map, not on whether any account holds it.
If the entry is absent (the role was never granted), a grant of
`DEFAULT_ADMIN` by any caller succeeds and returns `true`; if the entry is
present (even with an empty member set, as after grant-then-revoke), a caller
that does not hold the admin role of `DEFAULT_ADMIN` gets `AccessDenied`. -/
theorem C2_bootstrap_key_presence (ac : AccessControl) (sender account : Bytes32) :
    (mapContains ac.roles DEFAULT_ADMIN_ROLE = false →
      (ac.grant_role sender DEFAULT_ADMIN_ROLE account).1 = Except.ok true) ∧
    (mapContains ac.roles DEFAULT_ADMIN_ROLE = true →
      ac.has_role (ac.get_role_admin DEFAULT_ADMIN_ROLE) sender = false →
      ∃ msg, (ac.grant_role sender DEFAULT_ADMIN_ROLE account).1 =
        Except.error (ContractError.accessDenied msg)) := by
  constructor
  · intro habs
    have hnone : mapLookup ac.roles DEFAULT_ADMIN_ROLE = none := by
      unfold mapContains at habs
      cases hl : mapLookup ac.roles DEFAULT_ADMIN_ROLE with
      | none => rfl
      | some l => rw [hl] at habs; simp at habs
    unfold AccessControl.grant_role
    have hhr : ac.has_role DEFAULT_ADMIN_ROLE account = false := by
      unfold AccessControl.has_role
      rw [hnone]
      rfl
    simp [habs, hhr]
  · intro hpres hnoadmin
    unfold AccessControl.grant_role
    have hcheck : ac.check_role (ac.get_role_admin DEFAULT_ADMIN_ROLE) sender =
        Except.error (ContractError.accessDenied
          ("Account " ++ debugBytes sender ++ " does not have required role "
            ++ debugBytes (ac.get_role_admin DEFAULT_ADMIN_ROLE))) := by
      unfold AccessControl.check_role
      rw [hnoadmin]
      rfl
    simp [hpres, hcheck]

/-- Witness for C2: at the fresh access control the entry is absent and any
caller's grant succeeds; after the bootstrap grant the entry is present and
the roleless caller `addrB` is refused. -/
theorem C2_witness :
    ((AccessControl.new.grant_role addrB DEFAULT_ADMIN_ROLE addrB).1 = Except.ok true) ∧
    (∃ msg, ((AccessControl.new.grant_role addrA DEFAULT_ADMIN_ROLE
        addrA).2.grant_role addrB DEFAULT_ADMIN_ROLE addrB).1 =
      Except.error (ContractError.accessDenied msg)) :=
  ⟨(C2_bootstrap_key_presence AccessControl.new addrB addrB).1 (by decide),
   (C2_bootstrap_key_presence (AccessControl.new.grant_role addrA DEFAULT_ADMIN_ROLE
     addrA).2 addrB addrB).2 (by decide) (by decide)⟩

/-! Lemmas about the state manager, shared by C3, C5 and C6. -/

theorem update_state_snapshots (sm : StateManager) (a : Bytes32) (k v : Bytes) :
    (sm.update_state a k v).2.snapshots = sm.snapshots := by
  unfold StateManager.update_state
  cases h : validate_state_update ((mapLookup sm.states a).getD []) k v with
  | error e => simp [h]
  | ok u => simp [h, StateManager.track_state_changes]

theorem restore_snapshots (sm : StateManager) (a : Bytes32) (ts : Nat) :
    (sm.restore_from_snapshot a ts).2.snapshots = sm.snapshots := by
  unfold StateManager.restore_from_snapshot
  cases hl : mapLookup sm.snapshots a with
  | none => rfl
  | some snaps =>
    cases hf : snaps.find? (fun s => decide (s.timestamp = ts)) with
    | none => simp [hf]
    | some snap =>
      by_cases hv : verify_state_integrity snap
      · simp [hf, hv]
      · simp [hf, hv]

theorem create_snapshot_of_state (sm : StateManager) (now : Nat) (addr : Bytes32)
    (version : String) (st : StMap) (h : mapLookup sm.states addr = some st) :
    sm.create_snapshot now addr version =
      (Except.ok ⟨addr, version, now, st, compute_state_hash st, 1⟩,
       ⟨sm.states,
        mapInsert sm.snapshots addr
          (((mapLookup sm.snapshots addr).getD [])
            ++ [⟨addr, version, now, st, compute_state_hash st, 1⟩]),
        sm.diffs⟩) := by
  unfold StateManager.create_snapshot
  rw [h]

theorem snapshotsOk_new : snapshotsOk StateManager.new := by
  intro addr snaps h
  simp [StateManager.new, mapLookup] at h

theorem snapshotsOk_create (sm : StateManager) (now : Nat) (addr : Bytes32) (version : String)
    (h : snapshotsOk sm) : snapshotsOk (sm.create_snapshot now addr version).2 := by
  intro a snaps hl s hs
  unfold StateManager.create_snapshot at hl
  cases hst : mapLookup sm.states addr with
  | none => rw [hst] at hl; exact h a snaps hl s hs
  | some st =>
    rw [hst] at hl
    simp only at hl
    by_cases ha : a = addr
    · subst ha
      rw [mapLookup_mapInsert_self] at hl
      obtain rfl : ((mapLookup sm.snapshots a).getD [])
          ++ [⟨a, version, now, st, compute_state_hash st, 1⟩] = snaps := by injection hl
      rcases List.mem_append.mp hs with hmem | hmem
      · cases hold : mapLookup sm.snapshots a with
        | none => rw [hold] at hmem; simp at hmem
        | some os =>
          rw [hold] at hmem
          exact h a os hold s hmem
      · rw [List.mem_singleton.mp hmem]
    · rw [mapLookup_mapInsert_ne _ _ _ _ ha] at hl
      exact h a snaps hl s hs

theorem snapshotsOk_update (sm : StateManager) (a : Bytes32) (k v : Bytes)
    (h : snapshotsOk sm) : snapshotsOk (sm.update_state a k v).2 := by
  intro addr snaps hl
  rw [update_state_snapshots] at hl
  exact h addr snaps hl

theorem snapshotsOk_restore (sm : StateManager) (a : Bytes32) (ts : Nat)
    (h : snapshotsOk sm) : snapshotsOk (sm.restore_from_snapshot a ts).2 := by
  intro addr snaps hl
  rw [restore_snapshots] at hl
  exact h addr snaps hl

theorem smReach_snapshotsOk {sm : StateManager} (h : SMReach sm) : snapshotsOk sm := by
  induction h with
  | init => exact snapshotsOk_new
  | snap h now addr version ih => exact snapshotsOk_create _ now addr version ih
  | restore h addr ts ih => exact snapshotsOk_restore _ addr ts ih
  | update h addr k v ih => exact snapshotsOk_update _ addr k v ih

/-! Claim C5: snapshot integrity. -/

/-- Claim C5: in every reachable state-manager state, every stored snapshot's
`state_hash` equals the SHA-256 recomputed from its `state` (keys sorted
ascending in byte order, `key ‖ value` fed per entry); since snapshots are only
ever appended and never mutated, the equality is preserved by every operation. -/
theorem C5_snapshot_integrity (sm : StateManager) (h : SMReach sm) (addr : Bytes32)
    (snaps : List StateSnapshot) (hl : mapLookup sm.snapshots addr = some snaps)
    (s : StateSnapshot) (hs : s ∈ snaps) : s.state_hash = compute_state_hash s.state :=
  smReach_snapshotsOk h addr snaps hl s hs

/-- Witness for C5: the first snapshot of the concrete trace carries the hash
of its own state. -/
theorem C5_witness :
    (((mapLookup smC6a.snapshots contractAddr).getD []).getD 0 dummySnapshot).state_hash =
      compute_state_hash
        (((mapLookup smC6a.snapshots contractAddr).getD []).getD 0 dummySnapshot).state :=
  C5_snapshot_integrity smC6a
    (SMReach.snap (SMReach.update SMReach.init contractAddr [107] [0]) 5 contractAddr "1.0.0")
    contractAddr ((mapLookup smC6a.snapshots contractAddr).getD []) (by decide)
    (((mapLookup smC6a.snapshots contractAddr).getD []).getD 0 dummySnapshot) (by decide)

/-! Claim C6: snapshot/restore round trip. -/

theorem find?_append_none {α : Type} (p : α → Bool) (l l' : List α)
    (h : ∀ x ∈ l, p x = false) : (l ++ l').find? p = l'.find? p := by
  induction l with
  | nil => rfl
  | cons e rest ih =>
    have he := h e (List.mem_cons_self e rest)
    simp only [List.cons_append, List.find?_cons, he]
    exact ih (fun x hx => h x (List.mem_cons_of_mem e hx))

theorem smUpdateSeq_snapshots {addr : Bytes32} {sm₁ sm₂ : StateManager}
    (h : SMUpdateSeq addr sm₁ sm₂) : sm₂.snapshots = sm₁.snapshots := by
  induction h with
  | refl => rfl
  | step smb k v h hok ih => rw [update_state_snapshots]; exact ih

/-- Claim C6 as stated is false: when an earlier snapshot of the address shares
the new snapshot's timestamp (two snapshots within the same second), restoring
by that timestamp finds the earlier snapshot, so the restore succeeds but the
resulting state is not the captured `S₀`. In the trace, `S₀ = [107] → [1]` is
snapshotted at time 5 after an older time-5 snapshot of `[107] → [0]`; after a
further update, restore-by-5 yields `[107] → [0]`. -/
theorem C6_counterexample :
    mapLookup smC6b.states contractAddr = some [([107], [1])] ∧
    (snapC6.1.map StateSnapshot.timestamp = Except.ok 5) ∧
    (snapC6.1.map StateSnapshot.state = Except.ok [([107], [1])]) ∧
    resC6.1 = Except.ok () ∧
    mapLookup resC6.2.states contractAddr = some [([107], [0])] ∧
    ¬ mapLookup resC6.2.states contractAddr = some [([107], [1])] := by
  refine ⟨by decide, by decide, by decide, by decide, by decide, by decide⟩

/-- Claim C6 amended: the round trip holds provided no earlier snapshot of the
address carries the same timestamp: if the current state of `addr` is `S₀`,
`create_snapshot(addr, v)` at time `now` returns a snapshot, and no previously
stored snapshot of `addr` has timestamp `now`, then after any finite sequence
of successful `update_state` calls on `addr`,
`restore_from_snapshot(addr, now)` succeeds and the current state of `addr`
equals `S₀` byte-for-byte. -/
theorem C6_snapshot_restore_roundtrip (sm : StateManager) (addr : Bytes32) (S0 : StMap)
    (v : String) (now : Nat) (snap : StateSnapshot) (sm₁ sm₂ : StateManager)
    (hstate : mapLookup sm.states addr = some S0)
    (hfresh : ∀ s ∈ (mapLookup sm.snapshots addr).getD [], s.timestamp ≠ now)
    (hcreate : sm.create_snapshot now addr v = (Except.ok snap, sm₁))
    (hupd : SMUpdateSeq addr sm₁ sm₂) :
    (sm₂.restore_from_snapshot addr now).1 = Except.ok () ∧
    mapLookup (sm₂.restore_from_snapshot addr now).2.states addr = some S0 := by
  rw [create_snapshot_of_state sm now addr v S0 hstate] at hcreate
  obtain ⟨hsnap, hsm₁⟩ : Except.ok (⟨addr, v, now, S0, compute_state_hash S0, 1⟩ :
      StateSnapshot) = Except.ok snap ∧
      (⟨sm.states,
        mapInsert sm.snapshots addr
          (((mapLookup sm.snapshots addr).getD [])
            ++ [⟨addr, v, now, S0, compute_state_hash S0, 1⟩]),
        sm.diffs⟩ : StateManager) = sm₁ := by
    constructor
    · exact congrArg Prod.fst hcreate
    · exact congrArg Prod.snd hcreate
  have hsnaps : mapLookup sm₂.snapshots addr =
      some (((mapLookup sm.snapshots addr).getD [])
        ++ [⟨addr, v, now, S0, compute_state_hash S0, 1⟩]) := by
    rw [smUpdateSeq_snapshots hupd, ← hsm₁]
    exact mapLookup_mapInsert_self _ _ _
  have hfind : (((mapLookup sm.snapshots addr).getD [])
      ++ [(⟨addr, v, now, S0, compute_state_hash S0, 1⟩ : StateSnapshot)]).find?
        (fun s => decide (s.timestamp = now)) =
      some ⟨addr, v, now, S0, compute_state_hash S0, 1⟩ := by
    rw [find?_append_none _ _ _ (fun x hx => by
      simpa using hfresh x hx)]
    simp [List.find?_cons]
  unfold StateManager.restore_from_snapshot
  rw [hsnaps]
  simp only [hfind]
  have hver : verify_state_integrity ⟨addr, v, now, S0, compute_state_hash S0, 1⟩ = true := by
    simp [verify_state_integrity]
  rw [hver]
  simp [mapLookup_mapInsert_self]

/-- Witness for C6 with distinct timestamps: snapshot `[107] → [1]` at time 9
(the only time-9 snapshot), update to `[107] → [2]`, and restore-by-9 returns
the captured state. -/
theorem C6_witness :
    (((smC6b.create_snapshot 9 contractAddr "1.1.0").2.update_state contractAddr [107]
        [2]).2.restore_from_snapshot contractAddr 9).1 = Except.ok () ∧
    mapLookup (((smC6b.create_snapshot 9 contractAddr "1.1.0").2.update_state contractAddr
        [107] [2]).2.restore_from_snapshot contractAddr 9).2.states contractAddr =
      some [([107], [1])] :=
  C6_snapshot_restore_roundtrip smC6b contractAddr [([107], [1])] "1.1.0" 9
    ⟨contractAddr, "1.1.0", 9, [([107], [1])],
      compute_state_hash [([107], [1])], 1⟩
    (smC6b.create_snapshot 9 contractAddr "1.1.0").2
    (((smC6b.create_snapshot 9 contractAddr "1.1.0").2.update_state contractAddr [107] [2]).2)
    (by decide) (by decide) (by decide)
    (SMUpdateSeq.step _ _ [107] [2] (SMUpdateSeq.refl _) (by decide))

/-! Characterizations of the registry mutators, shared by C3, C7 and C10. -/

theorem register_version_error_unchanged (reg : ContractRegistry) (addr : Bytes32)
    (version : ContractVersion) (e : ContractError)
    (h : (reg.register_version addr version).1 = Except.error e) :
    (reg.register_version addr version).2 = reg := by
  unfold ContractRegistry.register_version at h ⊢
  cases hbc : registryVerifyBytecode version.bytecode with
  | error e' => rfl
  | ok u =>
    rw [hbc] at h
    cases hcompat : reg.check_version_compatibility addr version with
    | error e' => rfl
    | ok u2 =>
      rw [hcompat] at h
      simp only at h
      cases (mapLookup reg.versions addr).bind List.getLast? <;> simp at h

theorem register_version_ok_fields (reg : ContractRegistry) (addr : Bytes32)
    (version : ContractVersion) (u u2 : Unit)
    (hbc : registryVerifyBytecode version.bytecode = Except.ok u)
    (hcompat : reg.check_version_compatibility addr version = Except.ok u2) :
    (reg.register_version addr version).1 = Except.ok () ∧
    (reg.register_version addr version).2.versions =
      mapInsert reg.versions addr (((mapLookup reg.versions addr).getD []) ++ [version]) := by
  unfold ContractRegistry.register_version
  rw [hbc, hcompat]
  cases (mapLookup reg.versions addr).bind List.getLast? <;> simp

theorem rollback_version_ok_fields (reg : ContractRegistry) (addr : Bytes32)
    (versions0 : List ContractVersion) (hv : mapLookup reg.versions addr = some versions0)
    (hlen : ¬ versions0.length < 2) :
    (reg.rollback_version addr).1 = Except.ok () ∧
    (reg.rollback_version addr).2.versions = mapInsert reg.versions addr versions0.dropLast := by
  unfold ContractRegistry.rollback_version
  rw [hv]
  simp only [if_neg hlen]
  refine ⟨trivial, ?_⟩
  cases hh : mapLookup reg.upgrade_history addr with
  | none => simp [hh]
  | some history => cases hgl : history.getLast? <;> simp [hh, hgl]

theorem rollback_version_error_unchanged (reg : ContractRegistry) (addr : Bytes32)
    (e : ContractError) (h : (reg.rollback_version addr).1 = Except.error e) :
    (reg.rollback_version addr).2 = reg := by
  cases hv : mapLookup reg.versions addr with
  | none =>
    unfold ContractRegistry.rollback_version
    simp [hv]
  | some versions0 =>
    by_cases hlen : versions0.length < 2
    · unfold ContractRegistry.rollback_version
      simp [hv, hlen]
    · exact absurd h (by
        rw [(rollback_version_ok_fields reg addr versions0 hv hlen).1]
        simp)

/-! Claim C7: semver monotonicity of the registry history. -/

theorem compat_ok_last {reg : ContractRegistry} {addr : Bytes32} {version : ContractVersion}
    {versions0 : List ContractVersion} {latest : ContractVersion} {u : Unit}
    (hvs0 : mapLookup reg.versions addr = some versions0)
    (hlast : versions0.getLast? = some latest)
    (hcompat : reg.check_version_compatibility addr version = Except.ok u) :
    semverPairLt latest version := by
  unfold ContractRegistry.check_version_compatibility at hcompat
  simp only [hvs0, hlast] at hcompat
  cases hpl : semverParse latest.metadata.version with
  | none => rw [hpl] at hcompat; exact absurd hcompat (by simp)
  | some cur =>
    rw [hpl] at hcompat
    simp only at hcompat
    cases hpn : semverParse version.metadata.version with
    | none => rw [hpn] at hcompat; exact absurd hcompat (by simp)
    | some nv =>
      rw [hpn] at hcompat
      simp only at hcompat
      by_cases hle : semverLe nv cur = true
      · rw [if_pos hle] at hcompat; exact absurd hcompat (by simp)
      · have hlt : semverLt cur nv = true := by
          unfold semverLe at hle
          simpa using hle
        exact ⟨cur, nv, hpl, hpn, hlt⟩

theorem regReach_chain {reg : ContractRegistry} (h : RegReach reg) :
    ∀ addr vs, mapLookup reg.versions addr = some vs → List.Chain' semverPairLt vs := by
  induction h with
  | init =>
    intro addr vs h
    simp [ContractRegistry.new, mapLookup] at h
  | register h addr version ih =>
    intro a vs hl
    rename_i reg0
    cases hbc : registryVerifyBytecode version.bytecode with
    | error e =>
      rw [register_version_error_unchanged reg0 addr version e (by
        unfold ContractRegistry.register_version
        rw [hbc])] at hl
      exact ih a vs hl
    | ok u =>
      cases hcompat : reg0.check_version_compatibility addr version with
      | error e =>
        rw [register_version_error_unchanged reg0 addr version e (by
          unfold ContractRegistry.register_version
          rw [hbc, hcompat])] at hl
        exact ih a vs hl
      | ok u2 =>
        rw [(register_version_ok_fields reg0 addr version u u2 hbc hcompat).2] at hl
        by_cases ha : a = addr
        · subst ha
          rw [mapLookup_mapInsert_self] at hl
          obtain rfl : ((mapLookup reg0.versions a).getD []) ++ [version] = vs := by
            injection hl
          cases hvs0 : mapLookup reg0.versions a with
          | none => simp
          | some versions0 =>
            simp only [Option.getD_some]
            cases hlast : versions0.getLast? with
            | none =>
              rw [List.getLast?_eq_none_iff.mp hlast]
              simp
            | some latest =>
              refine List.chain'_append.mpr ⟨ih a versions0 hvs0, by simp, ?_⟩
              intro x hx y hy
              rw [hlast] at hx
              simp only [Option.mem_def, Option.some.injEq] at hx
              simp only [List.head?_cons, Option.mem_def, Option.some.injEq] at hy
              subst hx
              subst hy
              exact compat_ok_last hvs0 hlast hcompat
        · rw [mapLookup_mapInsert_ne _ _ _ _ ha] at hl
          exact ih a vs hl
  | rollback h addr ih =>
    intro a vs hl
    rename_i reg0
    cases hres : (reg0.rollback_version addr).1 with
    | error e =>
      rw [rollback_version_error_unchanged reg0 addr e hres] at hl
      exact ih a vs hl
    | ok u =>
      cases hv : mapLookup reg0.versions addr with
      | none =>
        exact absurd hres (by
          unfold ContractRegistry.rollback_version
          rw [hv]
          simp)
      | some versions0 =>
        by_cases hlen : versions0.length < 2
        · exact absurd hres (by
            unfold ContractRegistry.rollback_version
            simp [hv, hlen])
        · rw [(rollback_version_ok_fields reg0 addr versions0 hv hlen).2] at hl
          by_cases ha : a = addr
          · subst ha
            rw [mapLookup_mapInsert_self] at hl
            obtain rfl : versions0.dropLast = vs := by injection hl
            exact (ih a versions0 hv).init
          · rw [mapLookup_mapInsert_ne _ _ _ _ ha] at hl
            exact ih a vs hl

/-- Claim C7: in every reachable registry state, adjacent versions of every
address compare strictly increasing under SemVer 2.0.0 precedence; and a
registration whose (parsed) version is equal to or below the current last
fails with `VersionConflict`, leaving the registry unchanged. -/
theorem C7_version_monotonicity :
    (∀ reg : ContractRegistry, RegReach reg → ∀ addr vs,
      mapLookup reg.versions addr = some vs → List.Chain' semverPairLt vs) ∧
    (∀ (reg : ContractRegistry) (addr : Bytes32) (version : ContractVersion)
      (vs : List ContractVersion) (latest : ContractVersion) (sl sn : SemVer),
      version.bytecode ≠ [] →
      mapLookup reg.versions addr = some vs →
      vs.getLast? = some latest →
      semverParse latest.metadata.version = some sl →
      semverParse version.metadata.version = some sn →
      semverLe sn sl = true →
      reg.register_version addr version =
        (Except.error (ContractError.versionConflict
          ("New version " ++ version.metadata.version
            ++ " must be greater than current version " ++ latest.metadata.version)), reg)) := by
  constructor
  · intro reg h addr vs hl
    exact regReach_chain h addr vs hl
  · intro reg addr version vs latest sl sn hbc hl hlast hpl hpn hle
    have hbc' : registryVerifyBytecode version.bytecode = Except.ok () := by
      unfold registryVerifyBytecode
      rw [if_neg (by simpa [List.isEmpty_iff] using hbc)]
    have hcompat : reg.check_version_compatibility addr version =
        Except.error (ContractError.versionConflict
          ("New version " ++ version.metadata.version
            ++ " must be greater than current version " ++ latest.metadata.version)) := by
      unfold ContractRegistry.check_version_compatibility
      simp only [hl, hlast, hpl, hpn, if_pos hle]
    unfold ContractRegistry.register_version
    rw [hbc', hcompat]

/-- Witness for C7: the registry after registering 1.0.0 then 1.1.0 at
`contractAddr` has a strictly increasing history, and registering 1.0.0 again
is refused with `VersionConflict` and no change. -/
theorem C7_witness :
    List.Chain' semverPairLt
      ((mapLookup ((ContractRegistry.new.register_version contractAddr
        ⟨[1, 2, 3], mdU0, abiLoop⟩).2.register_version contractAddr
        ⟨[1, 2, 3, 4], mdU1, abiLoop⟩).2.versions contractAddr).getD []) ∧
    ((ContractRegistry.new.register_version contractAddr
        ⟨[1, 2, 3], mdU0, abiLoop⟩).2.register_version contractAddr
        ⟨[1, 2, 3, 4], mdU1, abiLoop⟩).2.register_version contractAddr
        ⟨[7], mdU0, abiLoop⟩ =
      (Except.error (ContractError.versionConflict
        ("New version " ++ (⟨[7], mdU0, abiLoop⟩ : ContractVersion).metadata.version
          ++ " must be greater than current version "
          ++ (⟨[1, 2, 3, 4], mdU1, abiLoop⟩ : ContractVersion).metadata.version)),
       ((ContractRegistry.new.register_version contractAddr
        ⟨[1, 2, 3], mdU0, abiLoop⟩).2.register_version contractAddr
        ⟨[1, 2, 3, 4], mdU1, abiLoop⟩).2) :=
  ⟨C7_version_monotonicity.1 _
    (RegReach.register (RegReach.register RegReach.init contractAddr
      ⟨[1, 2, 3], mdU0, abiLoop⟩) contractAddr ⟨[1, 2, 3, 4], mdU1, abiLoop⟩)
    contractAddr _ (by decide),
   C7_version_monotonicity.2 _ contractAddr ⟨[7], mdU0, abiLoop⟩
    [⟨[1, 2, 3], mdU0, abiLoop⟩, ⟨[1, 2, 3, 4], mdU1, abiLoop⟩]
    ⟨[1, 2, 3, 4], mdU1, abiLoop⟩
    ⟨1, 1, 0, [], []⟩ ⟨1, 0, 0, [], []⟩
    (by decide) (by decide) (by decide) (by decide) (by decide) (by decide)⟩

/-! Claim C4: the admission bounds of the operation tracker. -/

theorem recentOps_mono (h : List (Nat × OperationType)) {t t' : Nat} (ht : t ≤ t') :
    recentOps h t' ≤ recentOps h t := by
  unfold recentOps
  apply List.Sublist.length_le
  apply List.monotone_filter_right
  intro e he
  simp only [decide_eq_true_eq] at he ⊢
  omega

theorem recentOps_dropWhile_le (h : List (Nat × OperationType))
    (p : Nat × OperationType → Bool) (t : Nat) :
    recentOps (h.dropWhile p) t ≤ recentOps h t := by
  unfold recentOps
  exact List.Sublist.length_le (List.Sublist.filter _ (List.dropWhile_sublist _))

theorem recentOps_append_one (h : List (Nat × OperationType)) (t : Nat) (op : OperationType) :
    recentOps (h ++ [(t, op)]) t = recentOps h t + 1 := by
  unfold recentOps
  rw [List.filter_append]
  simp [oneSecondNs]

theorem keysCleanup_sublist (l : List (Bytes32 × List OperationMetrics))
    (p : OperationMetrics → Bool) :
    List.Sublist
      (((l.map (fun e => (e.1, e.2.filter p))).filter (fun e => !e.2.isEmpty)).map Prod.fst)
      (l.map Prod.fst) := by
  have h1 := List.Sublist.map Prod.fst
    (List.filter_sublist (l := l.map (fun e => (e.1, e.2.filter p)))
      (p := fun e => !e.2.isEmpty))
  rw [List.map_map] at h1
  simpa using h1

theorem sumLens_cleanup_le (l : List (Bytes32 × List OperationMetrics))
    (p : OperationMetrics → Bool) :
    ((((l.map (fun e => (e.1, e.2.filter p))).filter
        (fun e => !e.2.isEmpty))).map (fun e => e.2.length)).sum ≤
      (l.map (fun e => e.2.length)).sum := by
  induction l with
  | nil => simp
  | cons e rest ih =>
    simp only [List.map_cons, List.filter_cons]
    by_cases hk : (!((e.2.filter p).isEmpty)) = true
    · rw [if_pos hk]
      simp only [List.map_cons, List.sum_cons]
      have hle := List.length_filter_le p e.2
      omega
    · rw [if_neg hk]
      simp only [List.map_cons, List.sum_cons]
      omega

theorem lookup_cleanup_le (l : List (Bytes32 × List OperationMetrics))
    (p : OperationMetrics → Bool) (a : Bytes32) (hnd : (l.map Prod.fst).Nodup) :
    ((mapLookup ((l.map (fun e => (e.1, e.2.filter p))).filter
        (fun e => !e.2.isEmpty)) a).getD []).length ≤
      ((mapLookup l a).getD []).length := by
  induction l with
  | nil => simp [mapLookup]
  | cons e rest ih =>
    simp only [List.map_cons, List.nodup_cons] at hnd
    simp only [List.map_cons, List.filter_cons]
    by_cases hea : e.1 = a
    · by_cases hk : (!((e.2.filter p).isEmpty)) = true
      · rw [if_pos hk]
        simpa [mapLookup, hea] using List.length_filter_le p e.2
      · rw [if_neg hk]
        have hnone : mapLookup ((rest.map (fun e => (e.1, e.2.filter p))).filter
            (fun e => !e.2.isEmpty)) a = none := by
          apply (mapLookup_none_iff _ _).mpr
          intro hc
          exact (hea ▸ hnd.1) ((keysCleanup_sublist rest p).subset hc)
        simp [hnone, mapLookup, hea]
    · by_cases hk : (!((e.2.filter p).isEmpty)) = true
      · rw [if_pos hk]
        simpa [mapLookup, hea] using ih hnd.2
      · rw [if_neg hk]
        simpa [mapLookup, hea] using ih hnd.2

theorem lookup_entryOrInsert_getD (m : List (Bytes32 × List OperationMetrics)) (a : Bytes32) :
    (mapLookup (entryOrInsert m a) a).getD [] = (mapLookup m a).getD [] := by
  unfold entryOrInsert
  by_cases hc : mapContains m a
  · rw [if_pos hc]
  · rw [if_neg hc]
    have hn : mapLookup m a = none := by
      unfold mapContains at hc
      cases h : mapLookup m a with
      | none => rfl
      | some l => rw [h] at hc; simp at hc
    rw [mapLookup_append, hn]
    simp [mapLookup]

theorem lookup_entryOrInsert_ne (m : List (Bytes32 × List OperationMetrics)) (a b : Bytes32)
    (hb : b ≠ a) : mapLookup (entryOrInsert m a) b = mapLookup m b := by
  unfold entryOrInsert
  by_cases hc : mapContains m a
  · rw [if_pos hc]
  · rw [if_neg hc, mapLookup_append]
    simp [mapLookup, Ne.symm hb]

theorem sumLens_entryOrInsert (m : List (Bytes32 × List OperationMetrics)) (a : Bytes32) :
    ((entryOrInsert m a).map (fun e => e.2.length)).sum =
      (m.map (fun e => e.2.length)).sum := by
  unfold entryOrInsert
  split <;> simp

theorem entryOrInsert_nodup (m : List (Bytes32 × List OperationMetrics)) (a : Bytes32)
    (hnd : (m.map Prod.fst).Nodup) : ((entryOrInsert m a).map Prod.fst).Nodup := by
  unfold entryOrInsert
  by_cases hc : mapContains m a
  · rw [if_pos hc]; exact hnd
  · rw [if_neg hc]
    have hn : a ∉ m.map Prod.fst := by
      apply (mapLookup_none_iff m a).mp
      unfold mapContains at hc
      cases h : mapLookup m a with
      | none => rfl
      | some l => rw [h] at hc; simp at hc
    rw [List.map_append]
    exact List.nodup_append.mpr ⟨hnd, List.nodup_singleton a, by simpa using hn⟩

theorem lookup_mapAppendAt (m : List (Bytes32 × List OperationMetrics)) (a : Bytes32)
    (metric : OperationMetrics) :
    mapLookup (m.map (fun e => if e.1 = a then (e.1, e.2 ++ [metric]) else e)) a =
      (mapLookup m a).map (fun ops => ops ++ [metric]) := by
  induction m with
  | nil => rfl
  | cons e rest ih =>
    obtain ⟨k, vl⟩ := e
    simp only [List.map_cons]
    by_cases hk : k = a
    · subst hk
      rw [if_pos (rfl : (k, vl).1 = k)]
      unfold mapLookup
      rw [if_pos (rfl : k = k), if_pos (rfl : k = k)]
      rfl
    · rw [if_neg (hk : ¬ (k, vl).1 = a)]
      unfold mapLookup
      rw [if_neg hk, if_neg hk]
      exact ih

theorem lookup_mapAppendAt_ne (m : List (Bytes32 × List OperationMetrics)) (a b : Bytes32)
    (metric : OperationMetrics) (hb : b ≠ a) :
    mapLookup (m.map (fun e => if e.1 = a then (e.1, e.2 ++ [metric]) else e)) b =
      mapLookup m b := by
  induction m with
  | nil => rfl
  | cons e rest ih =>
    obtain ⟨k, vl⟩ := e
    simp only [List.map_cons]
    by_cases hk : k = a
    · subst hk
      rw [if_pos (rfl : (k, vl).1 = k)]
      unfold mapLookup
      rw [if_neg (Ne.symm hb), if_neg (Ne.symm hb)]
      exact ih
    · rw [if_neg (hk : ¬ (k, vl).1 = a)]
      unfold mapLookup
      by_cases hkb : k = b
      · rw [if_pos hkb, if_pos hkb]
      · rw [if_neg hkb, if_neg hkb]
        exact ih

theorem lookup_pushMetric_self (m : List (Bytes32 × List OperationMetrics)) (a : Bytes32)
    (metric : OperationMetrics) :
    mapLookup (pushMetric m a metric) a = some (((mapLookup m a).getD []) ++ [metric]) := by
  unfold pushMetric
  by_cases hc : mapContains m a
  · rw [if_pos hc, lookup_mapAppendAt]
    unfold mapContains at hc
    cases h : mapLookup m a with
    | none => rw [h] at hc; simp at hc
    | some ops => simp [h]
  · rw [if_neg hc, mapLookup_append]
    have hn : mapLookup m a = none := by
      unfold mapContains at hc
      cases h : mapLookup m a with
      | none => rfl
      | some l => rw [h] at hc; simp at hc
    rw [hn]
    simp [mapLookup]

theorem lookup_pushMetric_ne (m : List (Bytes32 × List OperationMetrics)) (a b : Bytes32)
    (metric : OperationMetrics) (hb : b ≠ a) :
    mapLookup (pushMetric m a metric) b = mapLookup m b := by
  unfold pushMetric
  by_cases hc : mapContains m a
  · rw [if_pos hc, lookup_mapAppendAt_ne m a b metric hb]
  · rw [if_neg hc, mapLookup_append]
    simp [mapLookup, Ne.symm hb]

theorem sumLens_mapAppendAt (m : List (Bytes32 × List OperationMetrics)) (a : Bytes32)
    (metric : OperationMetrics) (hnd : (m.map Prod.fst).Nodup) (hc : mapContains m a = true) :
    ((m.map (fun e => if e.1 = a then (e.1, e.2 ++ [metric]) else e)).map
        (fun e => e.2.length)).sum =
      (m.map (fun e => e.2.length)).sum + 1 := by
  induction m with
  | nil => unfold mapContains mapLookup at hc; simp at hc
  | cons e rest ih =>
    simp only [List.map_cons, List.nodup_cons] at hnd
    by_cases hea : e.1 = a
    · have hrest : rest.map (fun e => if e.1 = a then (e.1, e.2 ++ [metric]) else e) = rest := by
        have : ∀ x ∈ rest, (if x.1 = a then (x.1, x.2 ++ [metric]) else x) = x := by
          intro x hx
          rw [if_neg]
          intro hxa
          exact (hea ▸ hnd.1) (List.mem_map.mpr ⟨x, hx, hxa⟩)
        calc rest.map (fun e => if e.1 = a then (e.1, e.2 ++ [metric]) else e)
            = rest.map id := List.map_congr_left this
          _ = rest := List.map_id rest
      simp only [List.map_cons, if_pos hea, hrest, List.sum_cons, List.length_append,
        List.length_singleton]
      omega
    · have hc' : mapContains rest a = true := by
        unfold mapContains at hc ⊢
        unfold mapLookup at hc
        rw [if_neg hea] at hc
        exact hc
      simp only [List.map_cons, if_neg hea, List.sum_cons]
      rw [ih hnd.2 hc']
      omega

theorem sumLens_pushMetric (m : List (Bytes32 × List OperationMetrics)) (a : Bytes32)
    (metric : OperationMetrics) (hnd : (m.map Prod.fst).Nodup) :
    ((pushMetric m a metric).map (fun e => e.2.length)).sum =
      (m.map (fun e => e.2.length)).sum + 1 := by
  unfold pushMetric
  by_cases hc : mapContains m a
  · rw [if_pos hc]
    exact sumLens_mapAppendAt m a metric hnd hc
  · rw [if_neg hc]
    simp

theorem pushMetric_nodup (m : List (Bytes32 × List OperationMetrics)) (a : Bytes32)
    (metric : OperationMetrics) (hnd : (m.map Prod.fst).Nodup) :
    ((pushMetric m a metric).map Prod.fst).Nodup := by
  unfold pushMetric
  by_cases hc : mapContains m a
  · rw [if_pos hc]
    have hkeys : (m.map (fun e => if e.1 = a then (e.1, e.2 ++ [metric]) else e)).map Prod.fst
        = m.map Prod.fst := by
      rw [List.map_map]
      apply List.map_congr_left
      intro x hx
      by_cases hxa : x.1 = a <;> simp [hxa]
    rw [hkeys]
    exact hnd
  · rw [if_neg hc]
    have hn : a ∉ m.map Prod.fst := by
      apply (mapLookup_none_iff m a).mp
      unfold mapContains at hc
      cases h : mapLookup m a with
      | none => rfl
      | some l => rw [h] at hc; simp at hc
    rw [List.map_append]
    exact List.nodup_append.mpr ⟨hnd, List.nodup_singleton a, by simpa using hn⟩

theorem sumNat_sublist_le {l₁ l₂ : List Nat} (h : List.Sublist l₁ l₂) : l₁.sum ≤ l₂.sum := by
  induction h with
  | slnil => exact le_refl 0
  | cons x h ih => simp only [List.sum_cons]; omega
  | cons₂ x h ih => simp only [List.sum_cons]; omega

theorem sumLens_mapInsert_le (m : List (Bytes32 × List OperationMetrics)) (a : Bytes32)
    (ops ops' : List OperationMetrics) (hl : mapLookup m a = some ops)
    (hlen : ops'.length ≤ ops.length) :
    ((mapInsert m a ops').map (fun e => e.2.length)).sum ≤
      (m.map (fun e => e.2.length)).sum := by
  induction m with
  | nil => simp [mapLookup] at hl
  | cons e rest ih =>
    obtain ⟨k, vl⟩ := e
    by_cases hk : k = a
    · subst hk
      unfold mapLookup at hl
      rw [if_pos rfl] at hl
      obtain rfl : vl = ops := by injection hl
      unfold mapInsert
      rw [if_pos rfl]
      simp only [List.map_cons, List.sum_cons]
      omega
    · unfold mapLookup at hl
      rw [if_neg hk] at hl
      unfold mapInsert
      rw [if_neg hk]
      simp only [List.map_cons, List.sum_cons]
      have := ih hl
      omega

theorem start_operation_spec (s : OperationTracker) (t' : Nat) (a : Bytes32)
    (op : OperationType) :
    ((s.cleanup_expired_operations t').total_operations ≥ MAX_CONCURRENT_OPERATIONS →
      s.start_operation t' a op =
        (Except.error (ContractError.concurrencyLimitExceeded
          "Maximum concurrent operations (100) exceeded"), s.cleanup_expired_operations t')) ∧
    (¬ (s.cleanup_expired_operations t').total_operations ≥ MAX_CONCURRENT_OPERATIONS →
      recentOps (s.cleanup_expired_operations t').operation_history t' ≥
        MAX_OPERATIONS_PER_SECOND →
      s.start_operation t' a op =
        (Except.error (ContractError.concurrencyLimitExceeded
          "Maximum operations per second (1000) exceeded"), s.cleanup_expired_operations t')) ∧
    (¬ (s.cleanup_expired_operations t').total_operations ≥ MAX_CONCURRENT_OPERATIONS →
      ¬ recentOps (s.cleanup_expired_operations t').operation_history t' ≥
        MAX_OPERATIONS_PER_SECOND →
      perAddrActive (s.cleanup_expired_operations t') a ≥ 10 →
      s.start_operation t' a op =
        (Except.error (ContractError.concurrencyLimitExceeded
          "Maximum concurrent operations per contract exceeded"),
         ⟨entryOrInsert (s.cleanup_expired_operations t').active_operations a,
          (s.cleanup_expired_operations t').operation_history⟩)) ∧
    (¬ (s.cleanup_expired_operations t').total_operations ≥ MAX_CONCURRENT_OPERATIONS →
      ¬ recentOps (s.cleanup_expired_operations t').operation_history t' ≥
        MAX_OPERATIONS_PER_SECOND →
      ¬ perAddrActive (s.cleanup_expired_operations t') a ≥ 10 →
      s.start_operation t' a op =
        (Except.ok (),
         ⟨pushMetric (entryOrInsert (s.cleanup_expired_operations t').active_operations a) a
            ⟨op, t', a⟩,
          (s.cleanup_expired_operations t').operation_history ++ [(t', op)]⟩)) := by
  refine ⟨?_, ?_, ?_, ?_⟩
  · intro h1
    unfold OperationTracker.start_operation OperationTracker.check_operation_limits
    simp only [if_pos h1]
  · intro h1 h2
    unfold OperationTracker.start_operation OperationTracker.check_operation_limits
    simp only [if_neg h1, if_pos h2]
  · intro h1 h2 h3
    have h3' : ((mapLookup (entryOrInsert
        (s.cleanup_expired_operations t').active_operations a) a).getD []).length ≥ 10 := by
      rw [lookup_entryOrInsert_getD]
      exact h3
    unfold OperationTracker.start_operation OperationTracker.check_operation_limits
    simp only [if_neg h1, if_neg h2, if_pos h3']
  · intro h1 h2 h3
    have h3' : ¬ ((mapLookup (entryOrInsert
        (s.cleanup_expired_operations t').active_operations a) a).getD []).length ≥ 10 := by
      rw [lookup_entryOrInsert_getD]
      exact h3
    unfold OperationTracker.start_operation OperationTracker.check_operation_limits
    simp only [if_neg h1, if_neg h2, if_neg h3']

theorem trackerOk_cleanup (s : OperationTracker) {t t' : Nat} (hok : trackerOk s t)
    (ht : t ≤ t') : trackerOk (s.cleanup_expired_operations t') t' := by
  obtain ⟨hnd, htot, hper, hrec⟩ := hok
  refine ⟨?_, ?_, ?_, ?_⟩
  · exact List.Nodup.sublist (keysCleanup_sublist _ _) hnd
  · exact le_trans (sumLens_cleanup_le _ _) htot
  · intro b
    exact le_trans (lookup_cleanup_le _ _ b hnd) (hper b)
  · exact le_trans (recentOps_dropWhile_le _ _ _) (le_trans (recentOps_mono _ ht) hrec)

theorem trackerOk_start (s : OperationTracker) {t t' : Nat} (hok : trackerOk s t)
    (ht : t ≤ t') (a : Bytes32) (op : OperationType) :
    trackerOk (s.start_operation t' a op).2 t' := by
  have hc := trackerOk_cleanup s hok ht
  obtain ⟨sp1, sp2, sp3, sp4⟩ := start_operation_spec s t' a op
  by_cases h1 : (s.cleanup_expired_operations t').total_operations ≥ MAX_CONCURRENT_OPERATIONS
  · rw [sp1 h1]
    exact hc
  · by_cases h2 : recentOps (s.cleanup_expired_operations t').operation_history t' ≥
        MAX_OPERATIONS_PER_SECOND
    · rw [sp2 h1 h2]
      exact hc
    · obtain ⟨hnd, htot, hper, hrec⟩ := hc
      by_cases h3 : perAddrActive (s.cleanup_expired_operations t') a ≥ 10
      · rw [sp3 h1 h2 h3]
        refine ⟨entryOrInsert_nodup _ _ hnd, ?_, ?_, hrec⟩
        · show ((entryOrInsert _ a).map (fun e => e.2.length)).sum ≤ _
          rw [sumLens_entryOrInsert]
          exact htot
        · intro b
          unfold perAddrActive
          by_cases hba : b = a
          · subst hba
            show ((mapLookup (entryOrInsert _ b) b).getD []).length ≤ 10
            rw [lookup_entryOrInsert_getD]
            exact hper b
          · show ((mapLookup (entryOrInsert _ a) b).getD []).length ≤ 10
            rw [lookup_entryOrInsert_ne _ _ _ hba]
            exact hper b
      · rw [sp4 h1 h2 h3]
        have hnd2 := entryOrInsert_nodup
          (s.cleanup_expired_operations t').active_operations a hnd
        refine ⟨pushMetric_nodup _ _ _ hnd2, ?_, ?_, ?_⟩
        · show ((pushMetric (entryOrInsert _ a) a _).map (fun e => e.2.length)).sum ≤ _
          rw [sumLens_pushMetric _ _ _ hnd2, sumLens_entryOrInsert]
          unfold OperationTracker.total_operations at h1
          unfold MAX_CONCURRENT_OPERATIONS at h1 ⊢
          omega
        · intro b
          unfold perAddrActive
          by_cases hba : b = a
          · subst hba
            show ((mapLookup (pushMetric (entryOrInsert _ b) b _) b).getD []).length ≤ 10
            rw [lookup_pushMetric_self, lookup_entryOrInsert_getD]
            simp only [Option.getD_some, List.length_append, List.length_singleton]
            unfold perAddrActive at h3
            omega
          · show ((mapLookup (pushMetric (entryOrInsert _ a) a _) b).getD []).length ≤ 10
            rw [lookup_pushMetric_ne _ _ _ _ hba, lookup_entryOrInsert_ne _ _ _ hba]
            exact hper b
        · show recentOps (_ ++ [(t', op)]) t' ≤ MAX_OPERATIONS_PER_SECOND
          rw [recentOps_append_one]
          unfold MAX_OPERATIONS_PER_SECOND at h2 ⊢
          omega

theorem trackerOk_end (s : OperationTracker) {t t' : Nat} (hok : trackerOk s t)
    (ht : t ≤ t') (a : Bytes32) (op : OperationType) :
    trackerOk (s.end_operation a op) t' := by
  obtain ⟨hnd, htot, hper, hrec⟩ := hok
  have hrec' : recentOps s.operation_history t' ≤ MAX_OPERATIONS_PER_SECOND :=
    le_trans (recentOps_mono _ ht) hrec
  unfold OperationTracker.end_operation
  cases hl : mapLookup s.active_operations a with
  | none => exact ⟨hnd, htot, hper, hrec'⟩
  | some ops =>
    by_cases hemp : (ops.filter (fun o => decide (o.operation_type ≠ op))).isEmpty
    · simp only [hemp, if_pos, if_true]
      refine ⟨?_, ?_, ?_, hrec'⟩
      · exact List.Nodup.sublist (List.Sublist.map Prod.fst (mapRemove_sublist _ _)) hnd
      · exact le_trans (sumNat_sublist_le
          (List.Sublist.map _ (mapRemove_sublist s.active_operations a))) htot
      · intro b
        unfold perAddrActive
        by_cases hba : b = a
        · subst hba
          show ((mapLookup (mapRemove _ b) b).getD []).length ≤ 10
          rw [mapLookup_mapRemove_self _ _ hnd]
          simp
        · show ((mapLookup (mapRemove _ a) b).getD []).length ≤ 10
          rw [mapLookup_mapRemove_ne _ _ _ hba]
          exact hper b
    · simp only [hemp, if_neg, Bool.false_eq_true, if_false]
      refine ⟨mapInsert_keys_nodup _ _ _ hnd, ?_, ?_, hrec'⟩
      · exact le_trans (sumLens_mapInsert_le _ _ ops _ hl
          (List.length_filter_le _ ops)) htot
      · intro b
        unfold perAddrActive
        by_cases hba : b = a
        · subst hba
          show ((mapLookup (mapInsert _ b _) b).getD []).length ≤ 10
          rw [mapLookup_mapInsert_self]
          simp only [Option.getD_some]
          have h10 := hper b
          unfold perAddrActive at h10
          rw [hl] at h10
          simp only [Option.getD_some] at h10
          exact le_trans (List.length_filter_le _ ops) h10
        · show ((mapLookup (mapInsert _ a _) b).getD []).length ≤ 10
          rw [mapLookup_mapInsert_ne _ _ _ _ hba]
          exact hper b

theorem trackerReach_ok {s : OperationTracker} {t : Nat} (h : TrackerReach s t) :
    trackerOk s t := by
  induction h with
  | init =>
    refine ⟨?_, ?_, ?_, ?_⟩ <;>
      simp [OperationTracker.new, OperationTracker.total_operations, perAddrActive,
        recentOps, mapLookup]
  | start h ht a op ih => exact trackerOk_start _ ih ht a op
  | stop h ht a op ih => exact trackerOk_end _ ih ht a op

/-- Claim C4: at every reachable tracker state the admission bounds hold
(global active at most 100, per-address active at most 10, history entries
within the last second at most 1000), and `start_operation` enforces them in
order: reap, then reject on global active, then on the one-second rate, then
on per-address active, and otherwise append to `active[addr]` and to the
history. -/
theorem C4_admission_bounds :
    (∀ (s : OperationTracker) (t : Nat), TrackerReach s t →
      s.total_operations ≤ MAX_CONCURRENT_OPERATIONS ∧
      (∀ a, perAddrActive s a ≤ 10) ∧
      recentOps s.operation_history t ≤ MAX_OPERATIONS_PER_SECOND) ∧
    (∀ (s : OperationTracker) (t' : Nat) (a : Bytes32) (op : OperationType),
      ((s.cleanup_expired_operations t').total_operations ≥ MAX_CONCURRENT_OPERATIONS →
        (s.start_operation t' a op).1 = Except.error (ContractError.concurrencyLimitExceeded
          "Maximum concurrent operations (100) exceeded")) ∧
      (¬ (s.cleanup_expired_operations t').total_operations ≥ MAX_CONCURRENT_OPERATIONS →
        recentOps (s.cleanup_expired_operations t').operation_history t' ≥
          MAX_OPERATIONS_PER_SECOND →
        (s.start_operation t' a op).1 = Except.error (ContractError.concurrencyLimitExceeded
          "Maximum operations per second (1000) exceeded")) ∧
      (¬ (s.cleanup_expired_operations t').total_operations ≥ MAX_CONCURRENT_OPERATIONS →
        ¬ recentOps (s.cleanup_expired_operations t').operation_history t' ≥
          MAX_OPERATIONS_PER_SECOND →
        perAddrActive (s.cleanup_expired_operations t') a ≥ 10 →
        (s.start_operation t' a op).1 = Except.error (ContractError.concurrencyLimitExceeded
          "Maximum concurrent operations per contract exceeded")) ∧
      (¬ (s.cleanup_expired_operations t').total_operations ≥ MAX_CONCURRENT_OPERATIONS →
        ¬ recentOps (s.cleanup_expired_operations t').operation_history t' ≥
          MAX_OPERATIONS_PER_SECOND →
        ¬ perAddrActive (s.cleanup_expired_operations t') a ≥ 10 →
        (s.start_operation t' a op).1 = Except.ok () ∧
        (s.start_operation t' a op).2.operation_history =
          (s.cleanup_expired_operations t').operation_history ++ [(t', op)] ∧
        mapLookup (s.start_operation t' a op).2.active_operations a =
          some (((mapLookup (s.cleanup_expired_operations t').active_operations a).getD [])
            ++ [⟨op, t', a⟩]))) := by
  constructor
  · intro s t h
    obtain ⟨_, h2, h3, h4⟩ := trackerReach_ok h
    exact ⟨h2, h3, h4⟩
  · intro s t' a op
    obtain ⟨sp1, sp2, sp3, sp4⟩ := start_operation_spec s t' a op
    refine ⟨fun h => by rw [sp1 h], fun h1 h2 => by rw [sp2 h1 h2],
      fun h1 h2 h3 => by rw [sp3 h1 h2 h3], fun h1 h2 h3 => ?_⟩
    rw [sp4 h1 h2 h3]
    refine ⟨rfl, rfl, ?_⟩
    rw [lookup_pushMetric_self, lookup_entryOrInsert_getD]

/-- Witness for C4 at the concrete reachable tracker with two admitted
operations. -/
theorem C4_witness :
    trackerTwo.total_operations ≤ MAX_CONCURRENT_OPERATIONS ∧
    perAddrActive trackerTwo contractAddr ≤ 10 ∧
    recentOps trackerTwo.operation_history 0 ≤ MAX_OPERATIONS_PER_SECOND :=
  ⟨(C4_admission_bounds.1 trackerTwo 0
      (TrackerReach.start (TrackerReach.start TrackerReach.init (le_refl 0) contractAddr
        OperationType.execute) (le_refl 0) contractAddr OperationType.execute)).1,
   (C4_admission_bounds.1 trackerTwo 0
      (TrackerReach.start (TrackerReach.start TrackerReach.init (le_refl 0) contractAddr
        OperationType.execute) (le_refl 0) contractAddr OperationType.execute)).2.1 contractAddr,
   (C4_admission_bounds.1 trackerTwo 0
      (TrackerReach.start (TrackerReach.start TrackerReach.init (le_refl 0) contractAddr
        OperationType.execute) (le_refl 0) contractAddr OperationType.execute)).2.2⟩

/-! Lemmas about the runtime facade, shared by C3, C8, C9 and C10. -/

theorem update_state_ok_chr (sm : StateManager) (addr : Bytes32) (k v : Bytes)
    (sm' : StateManager) (h : sm.update_state addr k v = (Except.ok (), sm')) :
    sm'.states = mapInsert sm.states addr
      (mapInsert ((mapLookup sm.states addr).getD []) k v) ∧
    sm'.snapshots = sm.snapshots := by
  unfold StateManager.update_state at h
  cases hv : validate_state_update ((mapLookup sm.states addr).getD []) k v with
  | error e => simp only [hv] at h; simp at h
  | ok u =>
    simp only [hv, StateManager.track_state_changes] at h
    have h2 := congrArg Prod.snd h
    simp only at h2
    rw [← h2]
    exact ⟨rfl, rfl⟩

theorem validate_ok_some_state (rt : ContractRuntime) (addr : Bytes32)
    (h : rt.validate_contract_state addr = Except.ok ()) :
    mapLookup rt.state_manager.states addr =
      some ((mapLookup rt.state_manager.states addr).getD []) := by
  unfold ContractRuntime.validate_contract_state at h
  by_cases h1 : (!(rt.contract_exists addr)) = true
  · rw [if_pos h1] at h; simp at h
  · rw [if_neg h1] at h
    by_cases h2 : (mapLookup rt.state_manager.states addr).isNone
    · rw [if_pos h2] at h; simp at h
    · cases hs : mapLookup rt.state_manager.states addr with
      | none => rw [hs] at h2; simp at h2
      | some st => simp

/-! Claim C10: deploy_contract is not atomic on registry failure. -/

/-- Claim C10: when a deploy passes admission, authorization, bytecode
verification and the state write, but the final `register_version` fails, the
call returns the error, yet the `"_initialized"` entry written to the state
map and the snapshot appended beforehand remain: the state map still holds
the written entry and the snapshot list is one element longer than before the
call. -/
theorem C10_deploy_not_atomic (rt : ContractRuntime) (sender : Bytes32) (it wt : Nat)
    (bc : List Nat) (addr : Bytes32) (abi : ContractABI) (md : ContractMetadata)
    (lims : ResourceLimits) (tr : OperationTracker) (sm₁ : StateManager) (e : ContractError)
    (reg' : ContractRegistry)
    (hstart : rt.operation_tracker.start_operation it addr OperationType.deploy =
      (Except.ok (), tr))
    (hrole : rt.access_control.has_role DEPLOYER_ROLE sender = true)
    (hbc : rt.verify_bytecode bc = Except.ok ())
    (hupd : rt.state_manager.update_state addr initializedKey [1] = (Except.ok (), sm₁))
    (hreg : rt.registry.register_version addr ⟨bc, md, abi⟩ = (Except.error e, reg')) :
    (rt.deploy_contract sender it wt bc addr abi md lims).1 =
      Except.error (match e with
        | ContractError.versionConflict m =>
          ContractError.versionConflict ("Version conflict during deployment: " ++ m)
        | e' => e') ∧
    mapLookup (rt.deploy_contract sender it wt bc addr abi md lims).2.state_manager.states
        addr =
      some (mapInsert ((mapLookup rt.state_manager.states addr).getD [])
        initializedKey [1]) ∧
    ((mapLookup (rt.deploy_contract sender it wt bc addr abi md
        lims).2.state_manager.snapshots addr).getD []).length =
      ((mapLookup rt.state_manager.snapshots addr).getD []).length + 1 := by
  have hsm₁ := update_state_ok_chr rt.state_manager addr initializedKey [1] sm₁ hupd
  have hs1 : mapLookup sm₁.states addr =
      some (mapInsert ((mapLookup rt.state_manager.states addr).getD [])
        initializedKey [1]) := by
    rw [hsm₁.1]
    exact mapLookup_mapInsert_self _ _ _
  have hsnap := create_snapshot_of_state sm₁ wt addr md.version _ hs1
  unfold ContractRuntime.verify_bytecode at hbc
  unfold ContractRuntime.deploy_contract
  simp only [hstart]
  simp only [ContractRuntime.has_role, hrole, Bool.not_true, Bool.false_eq_true, if_false]
  simp only [ContractRuntime.verify_bytecode, hbc]
  simp only [hupd]
  simp only [hsnap]
  simp only [hreg]
  cases e <;>
    exact ⟨rfl,
      by simpa [finOp] using hs1,
      by simp [finOp, mapLookup_mapInsert_self, hsm₁.2]⟩

/-- Witness for C10: a second deploy of version 1.0.0 at `contractAddr` fails
with `VersionConflict`, yet the state entry stays and the snapshot count rises
from 1 to 2. -/
theorem C10_witness :
    (rtDeployed.deploy_contract addrA 6 2000 [1, 2, 3] contractAddr abiLoop mdV1
        limits0).1 =
      Except.error (match ContractError.versionConflict
          ("New version 1.0.0 must be greater than current version 1.0.0") with
        | ContractError.versionConflict m =>
          ContractError.versionConflict ("Version conflict during deployment: " ++ m)
        | e' => e') ∧
    mapLookup (rtDeployed.deploy_contract addrA 6 2000 [1, 2, 3] contractAddr abiLoop mdV1
        limits0).2.state_manager.states contractAddr =
      some (mapInsert ((mapLookup rtDeployed.state_manager.states contractAddr).getD [])
        initializedKey [1]) ∧
    ((mapLookup (rtDeployed.deploy_contract addrA 6 2000 [1, 2, 3] contractAddr abiLoop mdV1
        limits0).2.state_manager.snapshots contractAddr).getD []).length =
      ((mapLookup rtDeployed.state_manager.snapshots contractAddr).getD []).length + 1 :=
  C10_deploy_not_atomic rtDeployed addrA 6 2000 [1, 2, 3] contractAddr abiLoop mdV1 limits0
    (rtDeployed.operation_tracker.start_operation 6 contractAddr OperationType.deploy).2
    (rtDeployed.state_manager.update_state contractAddr initializedKey [1]).2
    (ContractError.versionConflict
      ("New version 1.0.0 must be greater than current version 1.0.0"))
    (rtDeployed.registry.register_version contractAddr ⟨[1, 2, 3], mdV1, abiLoop⟩).2
    (by decide) (by decide) (by decide) (by decide) (by decide)

/-! Claim C9: gas gating of the built-in loop_test. -/

theorem validate_tracker_irrel (rt : ContractRuntime) (tr : OperationTracker)
    (addr : Bytes32) :
    (ContractRuntime.mk rt.access_control rt.registry rt.state_manager
      tr).validate_contract_state addr = rt.validate_contract_state addr := rfl

/-- Claim C9 as stated is false for negative arguments: the source computes
`(n as u64) * 100` with a sign-extending cast, so `loop_test(-1)` with
`gas_limit = 1000` fails with the gas error even though `(-1) × 100` does not
exceed the limit. The trace deploys a contract whose ABI contains `loop_test`
and calls it with an `EXECUTOR` caller. -/
theorem C9_counterexample :
    rtDeployed.has_role EXECUTOR_ROLE addrA = true ∧
    (rtDeployed.registry.get_latest_version contractAddr).map
      (fun v => v.abi.methods.any (fun m => decide (m.name = "loop_test"))) =
        Except.ok true ∧
    ¬ ((-1 : Int) * 100 > (1000 : Int)) ∧
    (rtDeployed.execute_contract addrA 4 2000 contractAddr "loop_test"
        [WasmValue.i32 (-1)] envGas1000 none).1 =
      Except.error (ContractError.executionError
        "Gas limit exceeded: required 18446744073709551516 > limit 1000") := by
  refine ⟨by decide, by decide, by norm_num, by decide⟩

/-- Claim C9 amended: under admission, the `EXECUTOR` role, a validated
contract whose latest ABI contains `loop_test`, the call returns the
"Gas limit exceeded" `ExecutionError` exactly when `((n as u64) × 100)
mod 2^64` exceeds `env.gas_limit`, and `Ok` otherwise; for `0 ≤ n` (within
i32 range) this coincides with the claim's `n × 100 > gas_limit`, while for
negative `n` the sign-extending cast makes the product huge. -/
theorem C9_loop_test_gas (rt : ContractRuntime) (sender : Bytes32) (it wt : Nat)
    (addr : Bytes32) (n : Int) (env : ContractEnvironment) (tr : OperationTracker)
    (cv : ContractVersion)
    (hstart : rt.operation_tracker.start_operation it addr OperationType.execute =
      (Except.ok (), tr))
    (hrole : rt.access_control.has_role EXECUTOR_ROLE sender = true)
    (hvalid : rt.validate_contract_state addr = Except.ok ())
    (hver : rt.registry.get_latest_version addr = Except.ok cv)
    (habi : cv.abi.methods.any (fun m => decide (m.name = "loop_test")) = true) :
    ((rt.execute_contract sender it wt addr "loop_test" [WasmValue.i32 n] env none).1 =
      if (i32ToU64 n * 100) % u64w > env.gas_limit then
        Except.error (ContractError.executionError
          ("Gas limit exceeded: required " ++ toString ((i32ToU64 n * 100) % u64w)
            ++ " > limit " ++ toString env.gas_limit))
      else Except.ok []) ∧
    (0 ≤ n → n < 2147483648 →
      ((i32ToU64 n * 100) % u64w > env.gas_limit ↔ n.toNat * 100 > env.gas_limit)) := by
  constructor
  · have hstate := validate_ok_some_state rt addr hvalid
    have hsnap := create_snapshot_of_state rt.state_manager wt addr cv.metadata.version _
      hstate
    unfold ContractRuntime.execute_contract
    simp only [hstart]
    simp only [ContractRuntime.has_role, hrole, Bool.not_true, Bool.false_eq_true, if_false]
    simp only [validate_tracker_irrel, hvalid]
    simp only [hver]
    simp only [hsnap]
    simp only [habi, Bool.not_true, Bool.false_eq_true, if_false]
    simp [finOp, WasmValue.unwrap_i32]
  · intro h1 h2
    unfold i32ToU64 u64w
    have he : n % 18446744073709551616 = n := Int.emod_eq_of_lt h1 (by omega)
    rw [he]
    have hlt : n.toNat * 100 < 18446744073709551616 := by omega
    rw [Nat.mod_eq_of_lt hlt]

/-- Witness for C9: `loop_test(5)` under `gas_limit = 1000` succeeds
(500 gas required). -/
theorem C9_witness :
    (rtDeployed.execute_contract addrA 4 2000 contractAddr "loop_test" [WasmValue.i32 5]
      envGas1000 none).1 = Except.ok [] :=
  ((C9_loop_test_gas rtDeployed addrA 4 2000 contractAddr 5 envGas1000
    (rtDeployed.operation_tracker.start_operation 4 contractAddr OperationType.execute).2
    ⟨[0, 97, 115, 109], mdV1, abiLoop⟩
    (by decide) (by decide) (by decide) (by decide) (by decide)).1).trans (by decide)

/-! Claim C8: upgrade rate limits. -/

theorem checkup_tracker_irrel (rt : ContractRuntime) (tr : OperationTracker) (wt : Nat)
    (addr : Bytes32) :
    (ContractRuntime.mk rt.access_control rt.registry rt.state_manager
      tr).check_upgrade_limits wt addr = rt.check_upgrade_limits wt addr := rfl

theorem check_upgrade_limits_interval (rt : ContractRuntime) (wt : Nat) (addr : Bytes32)
    (vs : List ContractVersion) (latest : ContractVersion)
    (hvers : mapLookup rt.registry.versions addr = some vs)
    (hlast : vs.getLast? = some latest)
    (hint : u64sub wt latest.metadata.updated_at < MIN_UPGRADE_INTERVAL) :
    rt.check_upgrade_limits wt addr = Except.error (ContractError.upgradeLimitExceeded
      ("Must wait " ++ toString (MIN_UPGRADE_INTERVAL - u64sub wt latest.metadata.updated_at)
        ++ " seconds between upgrades")) := by
  have hne : vs.isEmpty = false := by
    cases vs with
    | nil => simp at hlast
    | cons x xs => rfl
  unfold ContractRuntime.check_upgrade_limits ContractRegistry.get_contract_versions
  simp only [hvers, hne, Bool.false_eq_true, if_false, hlast]
  simp only [if_pos hint]

theorem check_upgrade_limits_daily (rt : ContractRuntime) (wt : Nat) (addr : Bytes32)
    (vs : List ContractVersion) (latest : ContractVersion)
    (hvers : mapLookup rt.registry.versions addr = some vs)
    (hlast : vs.getLast? = some latest)
    (hint : ¬ u64sub wt latest.metadata.updated_at < MIN_UPGRADE_INTERVAL)
    (hcount : (vs.filter (fun v =>
        decide (u64sub wt v.metadata.created_at < 24 * 3600))).length ≥
      MAX_UPGRADES_PER_DAY) :
    rt.check_upgrade_limits wt addr = Except.error (ContractError.upgradeLimitExceeded
      "Maximum of 5 upgrades per day exceeded") := by
  have hne : vs.isEmpty = false := by
    cases vs with
    | nil => simp at hlast
    | cons x xs => rfl
  unfold ContractRuntime.check_upgrade_limits ContractRegistry.get_contract_versions
  simp only [hvers, hne, Bool.false_eq_true, if_false, hlast]
  simp only [if_neg hint]
  simp only [if_pos hcount]

/-- Claim C8 as stated is partly false: the `updated_at` and `created_at`
fields are caller-supplied metadata, not stamped by the runtime, so two
successive successful upgrades need not be 3600 s apart. In this trace, both
upgrades carry `updated_at = 0` and succeed at wall times 100001 and 100002 —
one second apart, and with zero difference between recorded `updated_at`s. -/
theorem C8_counterexample :
    upgU1.1 = Except.ok () ∧ upgU2.1 = Except.ok () ∧
    (100002 : Nat) - 100001 < MIN_UPGRADE_INTERVAL ∧
    mdU2.updated_at - mdU1.updated_at < MIN_UPGRADE_INTERVAL := by
  refine ⟨by decide, by decide, by decide, by decide⟩

/-- Claim C8 amended: under admission, the `UPGRADER` role and a validated
contract with a non-empty history, `upgrade_contract` at wall time `wt` is
rejected with `UpgradeLimitExceeded` whenever `wt − last.updated_at < 3600`
(wrapping u64 subtraction), and also whenever at least 5 versions have
`created_at` within the last 24 h of `wt`; conversely a successful upgrade
implies `wt − last.updated_at ≥ 3600` — a guarantee relative to the recorded
`updated_at`, not to the wall-clock time of the previous upgrade. -/
theorem C8_upgrade_rate_limits (rt : ContractRuntime) (sender : Bytes32) (it wt : Nat)
    (addr : Bytes32) (bc : List Nat) (abi : ContractABI) (md : ContractMetadata)
    (tr : OperationTracker) (vs : List ContractVersion) (latest : ContractVersion)
    (hstart : rt.operation_tracker.start_operation it addr OperationType.upgrade =
      (Except.ok (), tr))
    (hrole : rt.access_control.has_role UPGRADER_ROLE sender = true)
    (hvalid : rt.validate_contract_state addr = Except.ok ())
    (hvers : mapLookup rt.registry.versions addr = some vs)
    (hlast : vs.getLast? = some latest) :
    (u64sub wt latest.metadata.updated_at < MIN_UPGRADE_INTERVAL →
      (rt.upgrade_contract sender it wt addr bc abi md).1 =
        Except.error (ContractError.upgradeLimitExceeded
          ("Must wait "
            ++ toString (MIN_UPGRADE_INTERVAL - u64sub wt latest.metadata.updated_at)
            ++ " seconds between upgrades"))) ∧
    (¬ u64sub wt latest.metadata.updated_at < MIN_UPGRADE_INTERVAL →
      (vs.filter (fun v =>
          decide (u64sub wt v.metadata.created_at < 24 * 3600))).length ≥
        MAX_UPGRADES_PER_DAY →
      (rt.upgrade_contract sender it wt addr bc abi md).1 =
        Except.error (ContractError.upgradeLimitExceeded
          "Maximum of 5 upgrades per day exceeded")) ∧
    ((rt.upgrade_contract sender it wt addr bc abi md).1 = Except.ok () →
      ¬ u64sub wt latest.metadata.updated_at < MIN_UPGRADE_INTERVAL) := by
  have hbridge : ∀ e : ContractError, rt.check_upgrade_limits wt addr = Except.error e →
      (rt.upgrade_contract sender it wt addr bc abi md).1 = Except.error e := by
    intro e hch
    unfold ContractRuntime.upgrade_contract
    simp only [hstart]
    simp only [ContractRuntime.has_role, hrole, Bool.not_true, Bool.false_eq_true, if_false]
    simp only [validate_tracker_irrel, hvalid]
    simp only [checkup_tracker_irrel, hch]
  refine ⟨fun hint => hbridge _
      (check_upgrade_limits_interval rt wt addr vs latest hvers hlast hint),
    fun hint hcount => hbridge _
      (check_upgrade_limits_daily rt wt addr vs latest hvers hlast hint hcount), ?_⟩
  intro hok
  by_contra hint
  have herr := hbridge _ (check_upgrade_limits_interval rt wt addr vs latest hvers hlast
    (by omega))
  rw [herr] at hok
  simp at hok

/-- Witness for C8: upgrading 1000 s after the recorded `updated_at` is
rejected with the interval message. -/
theorem C8_witness :
    (rtDeployed.upgrade_contract addrA 7 2000 contractAddr [9] abiLoop mdV2).1 =
      Except.error (ContractError.upgradeLimitExceeded
        ("Must wait " ++ toString (MIN_UPGRADE_INTERVAL - u64sub 2000 mdV1.updated_at)
          ++ " seconds between upgrades")) :=
  (C8_upgrade_rate_limits rtDeployed addrA 7 2000 contractAddr [9] abiLoop mdV2
    (rtDeployed.operation_tracker.start_operation 7 contractAddr OperationType.upgrade).2
    [⟨[0, 97, 115, 109], mdV1, abiLoop⟩] ⟨[0, 97, 115, 109], mdV1, abiLoop⟩
    (by decide) (by decide) (by decide) (by decide) (by decide)).1 (by decide)

/-! Claim C3: what rollback_contract restores after deploy, updates, upgrade. -/

theorem pair_eq_of_fst {α β : Type} (p : α × β) (x : α) (h : p.1 = x) : p = (x, p.2) := by
  rw [← h]

theorem register_version_ok_versions_of (reg : ContractRegistry) (addr : Bytes32)
    (version : ContractVersion) (reg' : ContractRegistry)
    (h : reg.register_version addr version = (Except.ok (), reg')) :
    reg'.versions =
      mapInsert reg.versions addr (((mapLookup reg.versions addr).getD []) ++ [version]) := by
  cases hbc : registryVerifyBytecode version.bytecode with
  | error e =>
    exfalso
    have : (reg.register_version addr version).1 = Except.error e := by
      unfold ContractRegistry.register_version
      rw [hbc]
    rw [h] at this
    simp at this
  | ok u =>
    cases hcompat : reg.check_version_compatibility addr version with
    | error e =>
      exfalso
      have : (reg.register_version addr version).1 = Except.error e := by
        unfold ContractRegistry.register_version
        rw [hbc, hcompat]
      rw [h] at this
      simp at this
    | ok u2 =>
      have h2 := (register_version_ok_fields reg addr version u u2 hbc hcompat).2
      rw [h] at h2
      exact h2

theorem update_contract_state_preserves (rt : ContractRuntime) (it : Nat) (a : Bytes32)
    (k v : Bytes) :
    (rt.update_contract_state it a k v).2.registry = rt.registry ∧
    (rt.update_contract_state it a k v).2.access_control = rt.access_control ∧
    (rt.update_contract_state it a k v).2.state_manager.snapshots =
      rt.state_manager.snapshots := by
  unfold ContractRuntime.update_contract_state
  cases hst : rt.operation_tracker.start_operation it a OperationType.stateUpdate with
  | mk r tr =>
    cases r with
    | error e => exact ⟨rfl, rfl, rfl⟩
    | ok u =>
      cases hv : rt.validate_contract_state a with
      | error e =>
        simp only [validate_tracker_irrel, hv]
        exact ⟨rfl, rfl, rfl⟩
      | ok u2 =>
        simp only [validate_tracker_irrel, hv]
        exact ⟨rfl, rfl, update_state_snapshots _ _ _ _⟩

theorem rtUpdateSeq_preserves {addr : Bytes32} {rt₁ rt₂ : ContractRuntime}
    (h : RtUpdateSeq addr rt₁ rt₂) :
    rt₂.registry = rt₁.registry ∧ rt₂.access_control = rt₁.access_control ∧
    rt₂.state_manager.snapshots = rt₁.state_manager.snapshots := by
  induction h with
  | refl => exact ⟨rfl, rfl, rfl⟩
  | step rtb it k v h ih =>
    obtain ⟨h1, h2, h3⟩ := update_contract_state_preserves rtb it addr k v
    exact ⟨h1.trans ih.1, h2.trans ih.2.1, h3.trans ih.2.2⟩

theorem deploy_ok_fresh (rt rt' : ContractRuntime) (sender : Bytes32) (it wt : Nat)
    (bc : List Nat) (addr : Bytes32) (abi : ContractABI) (md : ContractMetadata)
    (lims : ResourceLimits)
    (hstates : mapLookup rt.state_manager.states addr = none)
    (hsnaps : mapLookup rt.state_manager.snapshots addr = none)
    (hvers : mapLookup rt.registry.versions addr = none)
    (h : rt.deploy_contract sender it wt bc addr abi md lims = (Except.ok (), rt')) :
    rt'.access_control = rt.access_control ∧
    mapLookup rt'.registry.versions addr = some [⟨bc, md, abi⟩] ∧
    mapLookup rt'.state_manager.states addr = some [(initializedKey, [1])] ∧
    mapLookup rt'.state_manager.snapshots addr =
      some [⟨addr, md.version, wt, [(initializedKey, [1])],
            compute_state_hash [(initializedKey, [1])], 1⟩] := by
  unfold ContractRuntime.deploy_contract at h
  cases hst : rt.operation_tracker.start_operation it addr OperationType.deploy with
  | mk r tr =>
  rw [hst] at h
  cases r with
  | error e => simp at h
  | ok u =>
  cases u
  simp only [ContractRuntime.has_role] at h
  cases hr : rt.access_control.has_role DEPLOYER_ROLE sender with
  | false => simp [hr] at h
  | true =>
  simp only [hr, Bool.not_true, Bool.false_eq_true, if_false] at h
  unfold ContractRuntime.verify_bytecode at h
  cases hbcE : bc.isEmpty with
  | true => simp [hbcE] at h
  | false =>
  simp only [hbcE, Bool.false_eq_true, if_false] at h
  by_cases hbcL : bc.length > MAX_UPGRADE_SIZE
  · simp [hbcL] at h
  · simp only [if_neg hbcL] at h
    have hupd : rt.state_manager.update_state addr initializedKey [1] =
        (Except.ok (),
         ⟨mapInsert rt.state_manager.states addr [(initializedKey, [1])],
          rt.state_manager.snapshots,
          mapInsert rt.state_manager.diffs addr
            (((mapLookup rt.state_manager.diffs addr).getD [])
              ++ [⟨[(initializedKey, [1])], [], []⟩])⟩) := by
      unfold StateManager.update_state
      simp only [hstates, Option.getD_none]
      rw [(by decide : validate_state_update [] initializedKey [1] = Except.ok ())]
      simp [StateManager.track_state_changes, mapInsert, mapContains, mapLookup]
    simp only [hupd] at h
    have hs1 : mapLookup (mapInsert rt.state_manager.states addr [(initializedKey, [1])])
        addr = some [(initializedKey, [1])] := mapLookup_mapInsert_self _ _ _
    have hsnap := create_snapshot_of_state
      ⟨mapInsert rt.state_manager.states addr [(initializedKey, [1])],
       rt.state_manager.snapshots,
       mapInsert rt.state_manager.diffs addr
         (((mapLookup rt.state_manager.diffs addr).getD [])
           ++ [⟨[(initializedKey, [1])], [], []⟩])⟩
      wt addr md.version [(initializedKey, [1])] hs1
    simp only [hsnap] at h
    obtain ⟨reg', hreg⟩ :
        ∃ r, rt.registry.register_version addr ⟨bc, md, abi⟩ = (Except.ok (), r) := by
      refine ⟨_, pair_eq_of_fst _ _ ?_⟩
      refine (register_version_ok_fields rt.registry addr ⟨bc, md, abi⟩ () () ?_ ?_).1
      · unfold registryVerifyBytecode
        simp [hbcE]
      · unfold ContractRegistry.check_version_compatibility
        simp only [hvers]
    simp only [hreg] at h
    have hrt' := congrArg Prod.snd h
    simp only at hrt'
    rw [← hrt']
    have hregv := register_version_ok_versions_of rt.registry addr ⟨bc, md, abi⟩ reg' hreg
    refine ⟨rfl, ?_, ?_, ?_⟩
    · show mapLookup reg'.versions addr = _
      rw [hregv, mapLookup_mapInsert_self]
      simp [hvers]
    · show mapLookup (mapInsert rt.state_manager.states addr [(initializedKey, [1])])
        addr = _
      exact hs1
    · show mapLookup (mapInsert rt.state_manager.snapshots addr _) addr = _
      rw [mapLookup_mapInsert_self]
      simp [hsnaps]

theorem upgrade_ok_chr (rt rt' : ContractRuntime) (sender : Bytes32) (it wt : Nat)
    (addr : Bytes32) (bc : List Nat) (abi : ContractABI) (md : ContractMetadata)
    (h : rt.upgrade_contract sender it wt addr bc abi md = (Except.ok (), rt')) :
    rt'.access_control = rt.access_control ∧
    rt'.registry.versions =
      mapInsert rt.registry.versions addr
        (((mapLookup rt.registry.versions addr).getD []) ++ [⟨bc, md, abi⟩]) ∧
    (∃ snap : StateSnapshot, verify_state_integrity snap = true ∧
      mapLookup rt'.state_manager.snapshots addr =
        some (((mapLookup rt.state_manager.snapshots addr).getD []) ++ [snap])) := by
  unfold ContractRuntime.upgrade_contract at h
  cases hst : rt.operation_tracker.start_operation it addr OperationType.upgrade with
  | mk r tr =>
  rw [hst] at h
  cases r with
  | error e => simp at h
  | ok u =>
  cases u
  simp only [ContractRuntime.has_role] at h
  cases hr : rt.access_control.has_role UPGRADER_ROLE sender with
  | false => simp [hr] at h
  | true =>
  simp only [hr, Bool.not_true, Bool.false_eq_true, if_false] at h
  cases hv : rt.validate_contract_state addr with
  | error e => simp only [validate_tracker_irrel, hv] at h; simp at h
  | ok u2 =>
  cases u2
  simp only [validate_tracker_irrel, hv] at h
  cases hcl : rt.check_upgrade_limits wt addr with
  | error e => simp only [checkup_tracker_irrel, hcl] at h; simp at h
  | ok u3 =>
  cases u3
  simp only [checkup_tracker_irrel, hcl] at h
  unfold ContractRuntime.verify_bytecode at h
  cases hbcE : bc.isEmpty with
  | true => simp [hbcE] at h
  | false =>
  simp only [hbcE, Bool.false_eq_true, if_false] at h
  by_cases hbcL : bc.length > MAX_UPGRADE_SIZE
  · simp [hbcL] at h
  · simp only [if_neg hbcL] at h
    cases hgl : rt.registry.get_latest_version addr with
    | error e => simp only [hgl] at h; simp at h
    | ok cv =>
    simp only [hgl] at h
    have hstv := validate_ok_some_state rt addr hv
    have hsnap := create_snapshot_of_state rt.state_manager wt addr cv.metadata.version _ hstv
    simp only [hsnap] at h
    cases hrr : (⟨rt.access_control, rt.registry,
        (⟨rt.state_manager.states,
          mapInsert rt.state_manager.snapshots addr
            (((mapLookup rt.state_manager.snapshots addr).getD [])
              ++ [⟨addr, cv.metadata.version, wt,
                   (mapLookup rt.state_manager.states addr).getD [],
                   compute_state_hash ((mapLookup rt.state_manager.states addr).getD []), 1⟩]),
          rt.state_manager.diffs⟩ : StateManager),
        tr⟩ : ContractRuntime).registry.register_version addr ⟨bc, md, abi⟩ with
    | mk r3 reg' =>
    rw [show (⟨rt.access_control, rt.registry, _, tr⟩ : ContractRuntime).registry =
      rt.registry from rfl] at hrr
    simp only [hrr] at h
    cases r3 with
    | error e => simp at h
    | ok u4 =>
    cases u4
    have hrt' := congrArg Prod.snd h
    simp only at hrt'
    rw [← hrt']
    have hregv := register_version_ok_versions_of rt.registry addr ⟨bc, md, abi⟩ reg' hrr
    refine ⟨rfl, hregv, ?_⟩
    refine ⟨⟨addr, cv.metadata.version, wt,
      (mapLookup rt.state_manager.states addr).getD [],
      compute_state_hash ((mapLookup rt.state_manager.states addr).getD []), 1⟩, ?_, ?_⟩
    · simp [verify_state_integrity]
    · show mapLookup (mapInsert rt.state_manager.snapshots addr _) addr = _
      rw [mapLookup_mapInsert_self]

theorem restore_first_snapshot (sm : StateManager) (addr : Bytes32) (snap : StateSnapshot)
    (rest : List StateSnapshot)
    (hsn : mapLookup sm.snapshots addr = some (snap :: rest))
    (hint : verify_state_integrity snap = true) :
    sm.restore_from_snapshot addr snap.timestamp =
      (Except.ok (), ⟨mapInsert sm.states addr snap.state, sm.snapshots, sm.diffs⟩) := by
  unfold StateManager.restore_from_snapshot
  simp only [hsn]
  rw [List.find?_cons_of_pos _ (by simp)]
  simp only [hint, if_true]

theorem rollback_version_pair (reg : ContractRegistry) (addr : Bytes32)
    (vs : List ContractVersion)
    (hv : mapLookup reg.versions addr = some vs) (hlen : ¬ vs.length < 2) :
    ∃ reg', reg.rollback_version addr = (Except.ok (), reg') ∧
      reg'.versions = mapInsert reg.versions addr vs.dropLast := by
  obtain ⟨h1, h2⟩ := rollback_version_ok_fields reg addr vs hv hlen
  exact ⟨(reg.rollback_version addr).2, pair_eq_of_fst _ _ h1, h2⟩

/-- C3, counterexample: after deploy 1.0.0 → update `[107] ↦ [7]` → upgrade
1.1.0, `rollback_contract` succeeds and the latest version is 1.0.0 again, but
the restored state is the DEPLOY-time snapshot `[(initialized, [1])]`, not the
pre-upgrade snapshot `[(initialized, [1]), ([107], [7])]` captured at the start
of the upgrade: `restore` uses the second-newest snapshot, and the snapshot
taken by `upgrade_contract` itself is the newest, so the rollback skips past
the pre-upgrade state. -/
theorem C3_counterexample :
    rollbackRes.1 = Except.ok () ∧
    rollbackRes.2.get_latest_version contractAddr =
      Except.ok ⟨[0, 97, 115, 109], mdV1, abiLoop⟩ ∧
    mdV1.version = "1.0.0" ∧
    (mapLookup rtUpg.state_manager.snapshots contractAddr).map
      (fun l => l.map StateSnapshot.state) =
      some [[(initializedKey, [1])], [(initializedKey, [1]), ([107], [7])]] ∧
    mapLookup rollbackRes.2.state_manager.states contractAddr =
      some [(initializedKey, [1])] ∧
    ([(initializedKey, [1])] : StMap) ≠ [(initializedKey, [1]), ([107], [7])] :=
  ⟨by decide, by decide, by decide, by decide, by decide, by decide⟩

/-- C3, amended: starting from a runtime with no state, snapshots or versions
at `addr`, after a successful `deploy_contract`, any finite sequence of
`update_contract_state` calls on `addr`, and a successful `upgrade_contract`,
a `rollback_contract` whose tracker admission succeeds and whose sender holds
the upgrader role (i) succeeds, (ii) makes `get_latest_version` return the
originally deployed version again, and (iii) restores the DEPLOY-time state
`[(initialized, [1])]` — the second-newest snapshot — not the pre-upgrade
state reached through the updates. -/
theorem C3_rollback_restores_deploy_state
    (rt₀ rt₁ rt₂ rt₃ : ContractRuntime) (s1 s2 s3 : Bytes32)
    (it₁ wt₁ it₂ wt₂ it₃ : Nat)
    (bc bc₂ : List Nat) (addr : Bytes32) (abi abi₂ : ContractABI)
    (md md₂ : ContractMetadata) (lims : ResourceLimits) (tr₃ : OperationTracker)
    (hstates : mapLookup rt₀.state_manager.states addr = none)
    (hsnaps : mapLookup rt₀.state_manager.snapshots addr = none)
    (hvers : mapLookup rt₀.registry.versions addr = none)
    (hdep : rt₀.deploy_contract s1 it₁ wt₁ bc addr abi md lims = (Except.ok (), rt₁))
    (hupds : RtUpdateSeq addr rt₁ rt₂)
    (hupg : rt₂.upgrade_contract s2 it₂ wt₂ addr bc₂ abi₂ md₂ = (Except.ok (), rt₃))
    (hstart₃ : rt₃.operation_tracker.start_operation it₃ addr OperationType.rollback =
      (Except.ok (), tr₃))
    (hrole₃ : rt₃.access_control.has_role UPGRADER_ROLE s3 = true) :
    (rt₃.rollback_contract s3 it₃ addr).1 = Except.ok () ∧
    (rt₃.rollback_contract s3 it₃ addr).2.get_latest_version addr =
      Except.ok ⟨bc, md, abi⟩ ∧
    mapLookup (rt₃.rollback_contract s3 it₃ addr).2.state_manager.states addr =
      some [(initializedKey, [1])] := by
  obtain ⟨hac₁, hv₁, hst₁, hsn₁⟩ :=
    deploy_ok_fresh rt₀ rt₁ s1 it₁ wt₁ bc addr abi md lims hstates hsnaps hvers hdep
  obtain ⟨hreg₂, hac₂, hsn₂⟩ := rtUpdateSeq_preserves hupds
  obtain ⟨hac₃, hv₃, snap₂, hint₂, hsn₃⟩ :=
    upgrade_ok_chr rt₂ rt₃ s2 it₂ wt₂ addr bc₂ abi₂ md₂ hupg
  have hsnlist : mapLookup rt₃.state_manager.snapshots addr =
      some [⟨addr, md.version, wt₁, [(initializedKey, [1])],
             compute_state_hash [(initializedKey, [1])], 1⟩, snap₂] := by
    rw [hsn₃, hsn₂, hsn₁]
    rfl
  have hrest := restore_first_snapshot rt₃.state_manager addr
    ⟨addr, md.version, wt₁, [(initializedKey, [1])],
     compute_state_hash [(initializedKey, [1])], 1⟩ [snap₂] hsnlist
    (by simp [verify_state_integrity])
  have hlook₃v : mapLookup rt₃.registry.versions addr =
      some [⟨bc, md, abi⟩, ⟨bc₂, md₂, abi₂⟩] := by
    rw [hv₃, hreg₂, hv₁]
    rw [mapLookup_mapInsert_self]
    rfl
  obtain ⟨reg', hrbv, hregv'⟩ := rollback_version_pair rt₃.registry addr
    [⟨bc, md, abi⟩, ⟨bc₂, md₂, abi₂⟩] hlook₃v (by simp)
  unfold ContractRuntime.rollback_contract
  simp only [hstart₃]
  simp only [ContractRuntime.has_role, hrole₃, Bool.not_true, Bool.false_eq_true, if_false]
  simp only [hsnlist]
  simp only [List.length_cons, List.length_nil]
  rw [if_neg (by decide : ¬ (0 + 1 + 1 < 2))]
  simp only [List.getD, List.get?, Option.getD_some]
  simp only [hrest]
  simp only [hrbv]
  refine ⟨trivial, ?_, ?_⟩
  · simp only [finOp, ContractRuntime.get_latest_version,
      ContractRegistry.get_latest_version, ContractRegistry.get_contract_versions]
    rw [hregv', mapLookup_mapInsert_self]
    rfl
  · show mapLookup (mapInsert rt₃.state_manager.states addr _) addr = _
    exact mapLookup_mapInsert_self _ _ _

/-- Witness for C3 (amended): on the concrete deploy → update → upgrade trace,
rollback succeeds, the latest version is the deployed 1.0.0 again, and the
state is the deploy-time `[(initialized, [1])]`. -/
theorem C3_witness :
    (rtUpg.rollback_contract addrA 3 contractAddr).1 = Except.ok () ∧
    (rtUpg.rollback_contract addrA 3 contractAddr).2.get_latest_version contractAddr =
      Except.ok ⟨[0, 97, 115, 109], mdV1, abiLoop⟩ ∧
    mapLookup (rtUpg.rollback_contract addrA 3 contractAddr).2.state_manager.states
        contractAddr =
      some [(initializedKey, [1])] :=
  C3_rollback_restores_deploy_state rtBase rtDeployed rtUpd rtUpg addrA addrA addrA
    0 1000 2 90000 3 [0, 97, 115, 109] [0, 97, 115, 109, 1] contractAddr abiLoop abiLoop
    mdV1 mdV2 limits0
    (rtUpg.operation_tracker.start_operation 3 contractAddr OperationType.rollback).2
    (by decide) (by decide) (by decide) (by decide)
    (RtUpdateSeq.step rtDeployed rtDeployed 1 [107] [7] (RtUpdateSeq.refl rtDeployed))
    (by decide) (by decide) (by decide)

end Blockchain
